import Mathlib

/-! ## ServiceBase.cpp (systemctl-win/exec): the class CServiceBase

A shallow embedding of the service base class: the status record, the
status reporter `SetServiceStatus`, the two logging helpers, the five
transition methods `Start`, `Stop`, `Pause`, `Continue`, `Shutdown`, the
control handler `ServiceCtrlHandler` and the entry point `ServiceMain` (up to
its blocking wait).

Machine integers (`DWORD`) are natural numbers; the one place where the
source does arithmetic on them (the post-increment of the static
check-point counter) is taken modulo `2^32`.

The virtual extension points `OnStart` ... `OnShutdown` are given as data:
the status re-reports the override issues through `SetServiceStatus`, and
whether it returns or throws (and what kind of object it throws).
-/

namespace ServiceBase

/-! ## Data model -/

/-- Modelled from the spec: the `SERVICE_*` state constants that `dwCurrentState`
ranges over. They are declared in the Windows header `winsvc.h`, which is not
part of the sources; the spec (section 3) enumerates them as StartPending,
Running, PausePending, Paused, ContinuePending, StopPending, Stopped. -/
inductive ServiceState where
  | SERVICE_STOPPED
  | SERVICE_START_PENDING
  | SERVICE_STOP_PENDING
  | SERVICE_RUNNING
  | SERVICE_CONTINUE_PENDING
  | SERVICE_PAUSE_PENDING
  | SERVICE_PAUSED
  deriving DecidableEq, Repr

open ServiceState

/-- The four `*_PENDING` states. -/
def ServiceState.isPending : ServiceState → Bool
  | SERVICE_START_PENDING => true
  | SERVICE_STOP_PENDING => true
  | SERVICE_CONTINUE_PENDING => true
  | SERVICE_PAUSE_PENDING => true
  | _ => false

/-- Modelled from the spec: `NO_ERROR`, the success exit code of the Windows
headers (absent from the sources); the spec gives `exitCode` 0 for success. -/
def NO_ERROR : Nat := 0

/-- Modelled from the spec: the default value of the `dwWaitHint` argument of
`SetServiceStatus`, declared in `ServiceBase.h` (absent from the sources); the
spec gives `report(state, exitCode=0, waitHintMs=0)`. -/
def defaultWaitHint : Nat := 0

/-- Number of values of a `DWORD`. -/
def DWORD_SIZE : Nat := 4294967296

/-- Modelled from the spec: the `dwControlsAccepted` bit mask. The
`SERVICE_ACCEPT_*` bit constants are declared in `winsvc.h` (absent from the
sources); the spec describes the field as the set of honoured control requests
among Stop, Shutdown, Pause/Continue, so the mask is kept as its three bits. -/
structure ControlsAccepted where
  SERVICE_ACCEPT_STOP : Bool
  SERVICE_ACCEPT_SHUTDOWN : Bool
  SERVICE_ACCEPT_PAUSE_CONTINUE : Bool
  deriving DecidableEq, Repr

/-- The fields of `SERVICE_STATUS` that the class writes (`m_status`);
`dwServiceType` is the constant `SERVICE_WIN32_OWN_PROCESS` and is left out. -/
structure SERVICE_STATUS where
  dwCurrentState : ServiceState
  dwControlsAccepted : ControlsAccepted
  dwWin32ExitCode : Nat
  dwServiceSpecificExitCode : Nat
  dwCheckPoint : Nat
  dwWaitHint : Nat
  deriving DecidableEq, Repr

/-- Severity manipulators of the journal stream (`Debug()`, `Info()`, `Error()`). -/
inductive LogLevel where
  | Debug
  | Info
  | Error
  deriving DecidableEq, Repr

/-- The `wType` argument of `WriteEventLogEntry`, as listed in its header comment. -/
inductive EventType where
  | EVENTLOG_SUCCESS
  | EVENTLOG_AUDIT_FAILURE
  | EVENTLOG_AUDIT_SUCCESS
  | EVENTLOG_ERROR_TYPE
  | EVENTLOG_INFORMATION_TYPE
  | EVENTLOG_WARNING_TYPE
  deriving DecidableEq, Repr

/-- One observable action of the class on its surroundings, in program order. -/
inductive Effect where
  /-- A line sent to `*logfile`, with its severity manipulator if it has one. -/
  | logline (level : Option LogLevel) (text : String)
  /-- A `ReportEvent` call made by `WriteEventLogEntry`. -/
  | ReportEvent (pszServiceName : String) (pszMessage : String) (wType : EventType)
  /-- The host call `::SetServiceStatus(m_statusHandle, &m_status)`. -/
  | SetServiceStatus (m_statusHandle : Option Nat) (status : SERVICE_STATUS)
  /-- The host call `::SetEvent(hSvcStopEvent)`. -/
  | SetEvent (hSvcStopEvent : Option Bool)
  deriving DecidableEq, Repr

/-- What a callback can throw, by the catch clause that receives it:
a `DWORD` (`catch (DWORD dwError)`), an object derived from `std::exception`
(`catch (const std::exception &e)`, with `e.what()`), or anything else
(`catch (...)`). -/
inductive Failure where
  | typed (dwError : Nat)
  | described (what : String)
  | unknown
  deriving DecidableEq, Repr

/-- One status re-report made from inside a callback: the three arguments of
`SetServiceStatus`. -/
structure Report where
  dwCurrentState : ServiceState
  dwWin32ExitCode : Nat
  dwWaitHint : Nat
  deriving DecidableEq, Repr

/-- The behaviour of one invocation of an extension callback (`OnStart`,
`OnStop`, `OnPause`, `OnContinue`, `OnShutdown`): the re-reports it issues
through `SetServiceStatus`, then `none` when it returns and `some f` when it
throws `f`. -/
structure Callback where
  reports : List Report
  outcome : Option Failure
  deriving DecidableEq, Repr

/-- The answers of the host to the calls the code makes. -/
structure Host where
  /-- Whether the `n`-th call of `RegisterEventSource` (counted from 0) returns
  a handle. -/
  RegisterEventSource : Nat → Bool
  /-- The `BOOL` that `::SetServiceStatus` returns for a handle and a record:
  `false` when the host rejects the publication. -/
  SetServiceStatus : Option Nat → SERVICE_STATUS → Bool
  /-- The handle that `RegisterServiceCtrlHandler` returns, `none` for `NULL`. -/
  RegisterServiceCtrlHandler : Option Nat
  /-- The last-error code that a refused `RegisterServiceCtrlHandler` sets. -/
  registrationError : Nat
  /-- The last-error code that the `n`-th call of `WriteEventLogEntry` (counted
  from 0, like `RegisterEventSource`) leaves behind through its host calls
  `RegisterEventSource`, `ReportEvent` and `DeregisterEventSource`; `none` when
  they leave the last-error code of the thread as it was. -/
  eventLogLastError : Nat → Option Nat
  /-- Whether `CreateEvent` returns a handle. -/
  CreateEvent : Bool

/-- The service object together with the static members of the class, the
function-local static of `SetServiceStatus`, the host and the effects so far. -/
structure Service where
  m_name : String
  m_statusHandle : Option Nat
  m_status : SERVICE_STATUS
  /-- The static member `bDebug`. -/
  bDebug : Bool
  /-- The static member `hSvcStopEvent`: `none` is `NULL`, `some b` an event
  whose signaled state is `b`. -/
  hSvcStopEvent : Option Bool
  /-- The counter `static DWORD dwCheckPoint` of `SetServiceStatus`. -/
  dwCheckPoint : Nat
  host : Host
  /-- Number of `RegisterEventSource` calls made so far. -/
  nRegisterEventSource : Nat
  /-- The last-error code of the thread, the value that `GetLastError()`
  returns. Only the host calls that precede the one `GetLastError()` of the
  class (in `ServiceMain`) are followed: the refused registration and the
  event-log write after it. -/
  lastError : Nat
  trace : List Effect

/-- What a method hands back to its caller: the state it leaves, and the
exception that escapes it, if any. -/
abbrev Ret := Service × Option Failure

/-! ## Helper functions -/

/-- The statement `*logfile << level << text << std::endl`. -/
def logfile (w : Service) (level : Option LogLevel) (text : String) : Service :=
  { w with trace := w.trace ++ [Effect.logline level text] }

/-- Method `CServiceBase::SetServiceStatus(dwCurrentState, dwWin32ExitCode, dwWaitHint)`. -/
def SetServiceStatus (w : Service) (dwCurrentState : ServiceState)
    (dwWin32ExitCode : Nat) (dwWaitHint : Nat) : Service :=
  let final := (dwCurrentState = SERVICE_RUNNING) ∨ (dwCurrentState = SERVICE_STOPPED)
  let m_status : SERVICE_STATUS :=
    { w.m_status with
      dwCurrentState := dwCurrentState
      dwWin32ExitCode := dwWin32ExitCode
      dwWaitHint := dwWaitHint
      dwCheckPoint := if final then 0 else w.dwCheckPoint }
  { w with
    m_status := m_status
    dwCheckPoint := if final then w.dwCheckPoint else (w.dwCheckPoint + 1) % DWORD_SIZE
    trace := w.trace ++ [Effect.SetServiceStatus w.m_statusHandle m_status] }

/-- Method `CServiceBase::WriteEventLogEntry(pszServiceName, pszMessage, wType)`:
the event is reported only when `RegisterEventSource` returned a handle. -/
def WriteEventLogEntry (w : Service) (pszServiceName pszMessage : String)
    (wType : EventType) : Service :=
  let hEventSource := w.host.RegisterEventSource w.nRegisterEventSource
  let w :=
    { w with
      nRegisterEventSource := w.nRegisterEventSource + 1
      lastError :=
        match w.host.eventLogLastError w.nRegisterEventSource with
        | some dwError => dwError
        | none => w.lastError }
  if hEventSource then
    { w with trace := w.trace ++ [Effect.ReportEvent pszServiceName pszMessage wType] }
  else w

/-- The conversion `%08lx`: lower-case hexadecimal, padded with zeros on the
left to at least eight digits. -/
def hex08 (n : Nat) : String :=
  let digits := Nat.toDigits 16 n
  String.mk (List.replicate (8 - digits.length) '0' ++ digits)

/-- Method `CServiceBase::WriteErrorLogEntry(pszFunction, dwError)`: the message is
`"%s failed w/err 0x%08lx"`. -/
def WriteErrorLogEntry (w : Service) (pszFunction : String) (dwError : Nat) : Service :=
  let szMessage := pszFunction ++ " failed w/err 0x" ++ hex08 dwError
  WriteEventLogEntry w w.m_name szMessage EventType.EVENTLOG_ERROR_TYPE

/-- The host call `::SetEvent(hSvcStopEvent)`: signals the event when the handle is not `NULL`. -/
def SetEvent (w : Service) : Service :=
  { w with
    hSvcStopEvent := w.hSvcStopEvent.map (fun _ => true)
    trace := w.trace ++ [Effect.SetEvent w.hSvcStopEvent] }

/-- Runs one invocation of an extension callback: its re-reports in order, then
its outcome. -/
def runCallback (w : Service) (cb : Callback) : Ret :=
  (cb.reports.foldl (fun w r => SetServiceStatus w r.dwCurrentState r.dwWin32ExitCode r.dwWaitHint) w,
   cb.outcome)

/-! ## Constructor -/

/-- Constructor `CServiceBase::CServiceBase(pszServiceName, logfile, fCanStop, fCanShutdown,
fCanPauseContinue)`, in a process whose static members still have their
initial values (`bDebug = false`, `hSvcStopEvent = NULL`, check-point counter 1).
`suppliedLog` tells whether the caller passed a journal stream. The name is
taken to fit the `MAX_SVC_NAME` characters of `m_name`. -/
def CServiceBase (host : Host) (pszServiceName : Option String) (suppliedLog : Bool)
    (fCanStop fCanShutdown fCanPauseContinue : Bool) : Service :=
  let w : Service :=
    { m_name := match pszServiceName with
        | some name => name
        | none => ""
      m_statusHandle := none
      m_status :=
        { dwCurrentState := SERVICE_START_PENDING
          dwControlsAccepted :=
            { SERVICE_ACCEPT_STOP := fCanStop
              SERVICE_ACCEPT_SHUTDOWN := fCanShutdown
              SERVICE_ACCEPT_PAUSE_CONTINUE := fCanPauseContinue }
          dwWin32ExitCode := NO_ERROR
          dwServiceSpecificExitCode := 0
          dwCheckPoint := 0
          dwWaitHint := 0 }
      bDebug := false
      hSvcStopEvent := none
      dwCheckPoint := 1
      host := host
      nRegisterEventSource := 0
      lastError := 0
      trace := [] }
  if suppliedLog then logfile w (some LogLevel.Debug) "got log file"
  else logfile w (some LogLevel.Debug) "opened log file"

/-! ## Start, Stop, Pause, Continue, Shutdown -/

/-- Method `CServiceBase::Start(dwArgc, pszArgv)`; `OnStart` is the override, applied
to the start-up arguments. -/
def Start (w : Service) (pszArgv : List String) (OnStart : List String → Callback) : Ret :=
  let w := logfile w (some LogLevel.Info) ("Start Service " ++ w.m_name)
  -- Tell SCM that the service is starting.
  let w := SetServiceStatus w SERVICE_START_PENDING NO_ERROR defaultWaitHint
  -- Perform service-specific initialization.
  match runCallback w (OnStart pszArgv) with
  | (w, none) =>
    -- Tell SCM that the service is started.
    (SetServiceStatus w SERVICE_RUNNING NO_ERROR defaultWaitHint, none)
  | (w, some (Failure.typed dwError)) =>
    let w := WriteErrorLogEntry w "Service Start" dwError
    let w := logfile w (some LogLevel.Error)
      ("Service Start " ++ w.m_name ++ " failed error code = " ++ toString dwError)
    -- Set the service status to be stopped.
    (SetServiceStatus w SERVICE_STOPPED dwError defaultWaitHint, none)
  | (w, some (Failure.described what)) =>
    let w := WriteEventLogEntry w w.m_name "Service failed to start." EventType.EVENTLOG_ERROR_TYPE
    let w := logfile w (some LogLevel.Error) ("Service Start " ++ w.m_name ++ " failed: " ++ what)
    (SetServiceStatus w SERVICE_STOPPED NO_ERROR defaultWaitHint, none)
  | (w, some Failure.unknown) =>
    let w := WriteEventLogEntry w w.m_name "Service failed to start." EventType.EVENTLOG_ERROR_TYPE
    let w := logfile w (some LogLevel.Error) ("Service Start " ++ w.m_name ++ " failed reason unknown")
    (SetServiceStatus w SERVICE_STOPPED NO_ERROR defaultWaitHint, none)

/-- Method `CServiceBase::Stop()`. There is no `catch (...)` clause: an object that is
neither a `DWORD` nor a `std::exception` leaves the method. -/
def Stop (w : Service) (OnStop : Callback) : Ret :=
  let dwOriginalState := w.m_status.dwCurrentState
  let w := logfile w (some LogLevel.Info) ("Start Service " ++ w.m_name)
  -- Tell SCM that the service is stopping.
  let w := SetServiceStatus w SERVICE_STOP_PENDING NO_ERROR defaultWaitHint
  -- Perform service-specific stop operations.
  match runCallback w OnStop with
  | (w, none) =>
    -- Tell SCM that the service is stopped.
    let w := SetServiceStatus w SERVICE_STOPPED NO_ERROR defaultWaitHint
    (SetEvent w, none)
  | (w, some (Failure.typed dwError)) =>
    let w := WriteErrorLogEntry w "Service Stop" dwError
    let w := logfile w (some LogLevel.Error)
      ("Service Stop " ++ w.m_name ++ " failed error code = " ++ toString dwError)
    -- Set the original service status.
    (SetServiceStatus w dwOriginalState NO_ERROR defaultWaitHint, none)
  | (w, some (Failure.described what)) =>
    let w := WriteEventLogEntry w w.m_name "Service failed to stop." EventType.EVENTLOG_ERROR_TYPE
    let w := logfile w (some LogLevel.Error) ("Service Stop " ++ w.m_name ++ " failed: " ++ what)
    -- Set the original service status.
    (SetServiceStatus w dwOriginalState NO_ERROR defaultWaitHint, none)
  | (w, some Failure.unknown) => (w, some Failure.unknown)

/-- Method `CServiceBase::Pause()`. The `catch (...)` clause logs and reports nothing. -/
def Pause (w : Service) (OnPause : Callback) : Ret :=
  let w := logfile w (some LogLevel.Info) ("Pause Service " ++ w.m_name)
  -- Tell SCM that the service is pausing.
  let w := SetServiceStatus w SERVICE_PAUSE_PENDING NO_ERROR defaultWaitHint
  -- Perform service-specific pause operations.
  match runCallback w OnPause with
  | (w, none) =>
    -- Tell SCM that the service is paused.
    (SetServiceStatus w SERVICE_PAUSED NO_ERROR defaultWaitHint, none)
  | (w, some (Failure.typed dwError)) =>
    let w := WriteErrorLogEntry w "Service Pause" dwError
    let w := logfile w (some LogLevel.Error)
      ("Service Pause " ++ w.m_name ++ " failed error code = " ++ toString dwError)
    -- Tell SCM that the service is still running.
    (SetServiceStatus w SERVICE_RUNNING NO_ERROR defaultWaitHint, none)
  | (w, some (Failure.described what)) =>
    let w := WriteEventLogEntry w w.m_name "Service failed to pause." EventType.EVENTLOG_ERROR_TYPE
    let w := logfile w (some LogLevel.Error) ("Service Pause " ++ w.m_name ++ " failed: " ++ what)
    -- Tell SCM that the service is still running.
    (SetServiceStatus w SERVICE_RUNNING NO_ERROR defaultWaitHint, none)
  | (w, some Failure.unknown) =>
    let w := WriteEventLogEntry w w.m_name "Service failed to pause." EventType.EVENTLOG_ERROR_TYPE
    let w := logfile w (some LogLevel.Error) ("Service Pause " ++ w.m_name ++ " failed: reason unknown ")
    -- Tell SCM that the service is still running. (the source has the comment only)
    (w, none)

/-- Method `CServiceBase::Continue()`. -/
def Continue (w : Service) (OnContinue : Callback) : Ret :=
  let w := logfile w (some LogLevel.Info) ("Continue Service " ++ w.m_name)
  -- Tell SCM that the service is resuming.
  let w := SetServiceStatus w SERVICE_CONTINUE_PENDING NO_ERROR defaultWaitHint
  -- Perform service-specific continue operations.
  match runCallback w OnContinue with
  | (w, none) =>
    -- Tell SCM that the service is running.
    (SetServiceStatus w SERVICE_RUNNING NO_ERROR defaultWaitHint, none)
  | (w, some (Failure.typed dwError)) =>
    let w := WriteErrorLogEntry w "Service Continue" dwError
    let w := logfile w (some LogLevel.Error)
      ("Service Continue " ++ w.m_name ++ " failed errocode = " ++ toString dwError)
    -- Tell SCM that the service is still paused.
    (SetServiceStatus w SERVICE_PAUSED NO_ERROR defaultWaitHint, none)
  | (w, some (Failure.described what)) =>
    let w := WriteEventLogEntry w w.m_name "Service failed to resume." EventType.EVENTLOG_ERROR_TYPE
    let w := logfile w (some LogLevel.Error) ("Service Continue " ++ w.m_name ++ " failed: " ++ what)
    -- Tell SCM that the service is still paused.
    (SetServiceStatus w SERVICE_PAUSED NO_ERROR defaultWaitHint, none)
  | (w, some Failure.unknown) =>
    let w := WriteEventLogEntry w w.m_name "Service failed to resume." EventType.EVENTLOG_ERROR_TYPE
    let w := logfile w (some LogLevel.Error) ("Service Continue " ++ w.m_name ++ " failed: reason unknown ")
    -- Tell SCM that the service is still paused.
    (SetServiceStatus w SERVICE_PAUSED NO_ERROR defaultWaitHint, none)

/-- Method `CServiceBase::Shutdown()`: no pending report, and no report after a failure. -/
def Shutdown (w : Service) (OnShutdown : Callback) : Ret :=
  let w := logfile w (some LogLevel.Info) ("Shutdown Service " ++ w.m_name)
  -- Perform service-specific shutdown operations.
  match runCallback w OnShutdown with
  | (w, none) =>
    -- Tell SCM that the service is stopped.
    (SetServiceStatus w SERVICE_STOPPED NO_ERROR defaultWaitHint, none)
  | (w, some (Failure.typed dwError)) =>
    let w := WriteErrorLogEntry w "Service Shutdown" dwError
    let w := logfile w (some LogLevel.Error)
      ("Service Shutdown " ++ w.m_name ++ " failed errocode = " ++ toString dwError)
    (w, none)
  | (w, some (Failure.described what)) =>
    let w := WriteEventLogEntry w w.m_name "Service failed to shut down." EventType.EVENTLOG_ERROR_TYPE
    let w := logfile w (some LogLevel.Error) ("Service Shutdown " ++ w.m_name ++ " failed: " ++ what)
    (w, none)
  | (w, some Failure.unknown) =>
    let w := WriteEventLogEntry w w.m_name "Service failed to shut down." EventType.EVENTLOG_ERROR_TYPE
    let w := logfile w (some LogLevel.Error) ("Service Shutdown " ++ w.m_name ++ " failed: reason unknown")
    (w, none)

/-! ## Sequences of transitions -/

/-- One call of a transition method, with the behaviour of the extension
callback during that call. -/
inductive Transition where
  | Start (pszArgv : List String) (OnStart : List String → Callback)
  | Stop (OnStop : Callback)
  | Pause (OnPause : Callback)
  | Continue (OnContinue : Callback)
  | Shutdown (OnShutdown : Callback)

/-- The callback invocation that the call performs. -/
def Transition.callback : Transition → Callback
  | Transition.Start pszArgv OnStart => OnStart pszArgv
  | Transition.Stop OnStop => OnStop
  | Transition.Pause OnPause => OnPause
  | Transition.Continue OnContinue => OnContinue
  | Transition.Shutdown OnShutdown => OnShutdown

/-- The state a transition reports when its callback succeeds (the transition
table of the spec, section 4.1). -/
def Transition.terminal : Transition → ServiceState
  | Transition.Start _ _ => SERVICE_RUNNING
  | Transition.Stop _ => SERVICE_STOPPED
  | Transition.Pause _ => SERVICE_PAUSED
  | Transition.Continue _ => SERVICE_RUNNING
  | Transition.Shutdown _ => SERVICE_STOPPED

/-- Executes one call. -/
def Transition.run (w : Service) : Transition → Ret
  | Transition.Start pszArgv OnStart => ServiceBase.Start w pszArgv OnStart
  | Transition.Stop OnStop => ServiceBase.Stop w OnStop
  | Transition.Pause OnPause => ServiceBase.Pause w OnPause
  | Transition.Continue OnContinue => ServiceBase.Continue w OnContinue
  | Transition.Shutdown OnShutdown => ServiceBase.Shutdown w OnShutdown

/-- Executes a sequence of calls one after the other; an exception that leaves
a transition method ends the sequence there. -/
def runSeq (w : Service) : List Transition → Ret
  | [] => (w, none)
  | t :: ts =>
    match t.run w with
    | (w, none) => runSeq w ts
    | (w, some f) => (w, some f)

/-! ## Projections of the effect trace -/

/-- The event-log entries (`ReportEvent` calls) of a trace. -/
def eventLog (trace : List Effect) : List (String × String × EventType) :=
  trace.filterMap fun e =>
    match e with
    | Effect.ReportEvent pszServiceName pszMessage wType => some (pszServiceName, pszMessage, wType)
    | _ => none

/-- The status records handed to the host, in order. -/
def published (trace : List Effect) : List SERVICE_STATUS :=
  trace.filterMap fun e =>
    match e with
    | Effect.SetServiceStatus _ status => some status
    | _ => none

/-- States reachable from a freshly constructed service by status reports and
transition calls with arbitrary callback behaviour. -/
inductive Reachable : Service → Prop where
  | init (host : Host) (pszServiceName : Option String) (suppliedLog : Bool)
      (fCanStop fCanShutdown fCanPauseContinue : Bool) :
      Reachable (CServiceBase host pszServiceName suppliedLog fCanStop fCanShutdown fCanPauseContinue)
  | report (w : Service) (r : Report) :
      Reachable w → Reachable (SetServiceStatus w r.dwCurrentState r.dwWin32ExitCode r.dwWaitHint)
  | call (w : Service) (t : Transition) :
      Reachable w → Reachable (t.run w).1

/-! ## Sample inputs -/

/-- A host that grants every request. -/
def hostOk : Host :=
  { RegisterEventSource := fun _ => true
    SetServiceStatus := fun _ _ => true
    RegisterServiceCtrlHandler := some 1
    registrationError := 0
    eventLogLastError := fun _ => none
    CreateEvent := true }

/-- A host that never grants an event source. -/
def hostNoEventSource : Host := { hostOk with RegisterEventSource := fun _ => false }

/-- A freshly constructed service with all capabilities. -/
def fresh : Service := CServiceBase hostOk (some "svc") true true true true

/-- A callback that returns without re-reporting (the default implementation). -/
def cbOk : Callback := { reports := [], outcome := none }

/-- A callback that throws the given object without re-reporting. -/
def cbFail (f : Failure) : Callback := { reports := [], outcome := some f }

/-- A freshly constructed service on a host that grants no event source. -/
def freshNoEventSource : Service := CServiceBase hostNoEventSource (some "svc") true true true true

/-- The fresh service after a successful `Start` and the creation of the stop
event, not yet signaled: the state in which `ServiceMain` waits for control
codes. Its `dwCurrentState` is `SERVICE_RUNNING`. -/
def running : Service := { (Start fresh [] (fun _ => cbOk)).1 with hSvcStopEvent := some false }

/-- A successful pause followed by a successful continue. -/
def pauseThenContinue : List Transition := [Transition.Pause cbOk, Transition.Continue cbOk]

/-- Number of status reports in a trace whose state is neither Running nor
Stopped (the reports that consume a value of the check-point counter). -/
def otherReports (trace : List Effect) : Nat :=
  ((published trace).filter fun st =>
    decide (¬ (st.dwCurrentState = SERVICE_RUNNING ∨ st.dwCurrentState = SERVICE_STOPPED))).length

/-- How the check-points of two consecutive status records are related when
neither state is Running or Stopped: the second is the first plus one modulo
`2^32`, hence greater unless the first is `2^32 - 1`. -/
def CheckPointStep (a b : SERVICE_STATUS) : Prop :=
  ¬ (a.dwCurrentState = SERVICE_RUNNING ∨ a.dwCurrentState = SERVICE_STOPPED) →
  ¬ (b.dwCurrentState = SERVICE_RUNNING ∨ b.dwCurrentState = SERVICE_STOPPED) →
    b.dwCheckPoint = (a.dwCheckPoint + 1) % DWORD_SIZE ∧
      (a.dwCheckPoint + 1 < DWORD_SIZE → a.dwCheckPoint < b.dwCheckPoint)

/-- What ties the check-point counter to the status record and to the reports
made so far; it holds after construction and every operation keeps it. -/
structure CounterInv (w : Service) : Prop where
  counter : w.dwCheckPoint = (1 + otherReports w.trace) % DWORD_SIZE
  next : ¬ (w.m_status.dwCurrentState = SERVICE_RUNNING ∨
      w.m_status.dwCurrentState = SERVICE_STOPPED) →
    w.dwCheckPoint = (w.m_status.dwCheckPoint + 1) % DWORD_SIZE
  last : ∀ st ∈ (published w.trace).getLast?, st = w.m_status
  steps : List.Chain' CheckPointStep (published w.trace)
  zero : ∀ st ∈ published w.trace,
    (st.dwCurrentState = SERVICE_RUNNING ∨ st.dwCurrentState = SERVICE_STOPPED) →
      st.dwCheckPoint = 0

/-- The service after `n` further reports of StartPending. -/
def reportMany (w : Service) : Nat → Service
  | 0 => w
  | n + 1 => SetServiceStatus (reportMany w n) SERVICE_START_PENDING NO_ERROR defaultWaitHint

/-- The running service with the check-point counter at its largest value. -/
def counterMax : Service := { running with dwCheckPoint := 4294967295 }

/-! ## Status reporter as seen by its callers -/

/-- The call `SetServiceStatus(dwCurrentState, dwWin32ExitCode, dwWaitHint)` as
its caller sees it: the state it leaves and the exception that leaves it. The
body of the method has no `throw` and drops the `BOOL` that the host call
`::SetServiceStatus` returns, so no exception leaves it. -/
def report (w : Service) (dwCurrentState : ServiceState) (dwWin32ExitCode dwWaitHint : Nat) : Ret :=
  (SetServiceStatus w dwCurrentState dwWin32ExitCode dwWaitHint, none)

/-- Whether the host accepted the record that the last `SetServiceStatus` call
handed to it, `true` when no record was handed over yet. -/
def lastPublicationAccepted (w : Service) : Bool :=
  match w.trace.getLast? with
  | some (Effect.SetServiceStatus m_statusHandle status) =>
    w.host.SetServiceStatus m_statusHandle status
  | _ => true

/-! ## Control handler and service entry point -/

/-- Modelled from the spec: the control codes that `ServiceCtrlHandler`
receives. The `SERVICE_CONTROL_*` constants are declared in `winsvc.h` (absent
from the sources); the spec (section 6) lists the codes Stop, Pause, Continue,
Shutdown, Interrogate and the unrecognised or user-defined ones (128 to 255),
which are kept here as `other` with their numeric value. -/
inductive ControlCode where
  | SERVICE_CONTROL_STOP
  | SERVICE_CONTROL_PAUSE
  | SERVICE_CONTROL_CONTINUE
  | SERVICE_CONTROL_SHUTDOWN
  | SERVICE_CONTROL_INTERROGATE
  | other (dwCtrl : Nat)
  deriving DecidableEq, Repr

/-- Method `CServiceBase::ServiceCtrlHandler(dwCtrl)`, for the registered
instance `s_service`; `cb` is the behaviour of the extension callback that the
routed transition invokes during this call. -/
def ServiceCtrlHandler (w : Service) (dwCtrl : ControlCode) (cb : Callback) : Ret :=
  let w := WriteEventLogEntry w "SystemD-Service-Exec" "Service ctl " EventType.EVENTLOG_ERROR_TYPE
  match dwCtrl with
  | ControlCode.SERVICE_CONTROL_STOP => Stop w cb
  | ControlCode.SERVICE_CONTROL_PAUSE => Pause w cb
  | ControlCode.SERVICE_CONTROL_CONTINUE => Continue w cb
  | ControlCode.SERVICE_CONTROL_SHUTDOWN => Shutdown w cb
  | ControlCode.SERVICE_CONTROL_INTERROGATE => (w, none)
  | ControlCode.other _ => (w, none)

/-- The state after the first statement of `ServiceCtrlHandler`, the event-log
entry "Service ctl ". -/
def handlerEntry (w : Service) : Service :=
  WriteEventLogEntry w "SystemD-Service-Exec" "Service ctl " EventType.EVENTLOG_ERROR_TYPE

/-- Delivers a sequence of control codes through `ServiceCtrlHandler`, one
after the other, each with the behaviour of the callback it reaches; an
exception that leaves the handler ends the sequence there. -/
def runControls (w : Service) : List (ControlCode × Callback) → Ret
  | [] => (w, none)
  | c :: cs =>
    match ServiceCtrlHandler w c.1 c.2 with
    | (w, none) => runControls w cs
    | (w, some f) => (w, some f)

/-- How `ServiceMain` ends: it returns, an exception leaves it, or it blocks in
`WaitForSingleObject(hSvcStopEvent, dwMilliseconds)`, where `none` stands for
`INFINITE`. -/
inductive Exit where
  | returned
  | thrown (f : Failure)
  | waiting (dwMilliseconds : Option Nat)
  deriving DecidableEq, Repr

/-- The part of `ServiceMain` after the registration of the control handler,
up to the blocking wait: it starts the service, creates the stop event and
waits for it. -/
def ServiceMain.afterRegistration (w : Service) (pszArgv : List String)
    (OnStart : List String → Callback) : Service × Exit :=
  let w := WriteEventLogEntry w "SystemD-Service-Exec" "Service starting *2." EventType.EVENTLOG_ERROR_TYPE
  -- Start the service.
  match Start w pszArgv OnStart with
  | (w, some f) => (w, Exit.thrown f)
  | (w, none) =>
    let w := WriteEventLogEntry w "SystemD-Service-Exec" "Service starting *3." EventType.EVENTLOG_ERROR_TYPE
    let w := logfile w none " create event"
    let w := { w with hSvcStopEvent := if w.host.CreateEvent then some false else none }
    match w.hSvcStopEvent with
    | none =>
      let w := WriteEventLogEntry w "SystemD-Service-Exec" "Service abnormal exit." EventType.EVENTLOG_ERROR_TYPE
      (w, Exit.returned)
    | some _ =>
      let w := WriteEventLogEntry w "SystemD-Service-Exec" "Service starting *4." EventType.EVENTLOG_ERROR_TYPE
      let w := logfile w none " wait for stop event "
      if w.bDebug then (w, Exit.waiting (some 20000)) else (w, Exit.waiting none)

/-- Method `CServiceBase::ServiceMain(dwArgc, pszArgv)`, for the registered
instance `s_service`, up to its blocking wait. -/
def ServiceMain (w : Service) (pszArgv : List String) (OnStart : List String → Callback) :
    Service × Exit :=
  let w := WriteEventLogEntry w "SystemD-Service-Exec" "Service starting." EventType.EVENTLOG_ERROR_TYPE
  -- Register the handler function for the service
  if w.bDebug then ServiceMain.afterRegistration w pszArgv OnStart
  else
    let w := { w with m_statusHandle := w.host.RegisterServiceCtrlHandler }
    match w.m_statusHandle with
    | none =>
      -- the refused registration leaves its error code as the last error
      let w := { w with lastError := w.host.registrationError }
      let w := WriteEventLogEntry w "SystemD-Service-Exec" "Service starting *1." EventType.EVENTLOG_ERROR_TYPE
      -- throw GetLastError();
      (w, Exit.thrown (Failure.typed w.lastError))
    | some _ => ServiceMain.afterRegistration w pszArgv OnStart

/-- The part of `ServiceMain` that runs once the wait has ended; the handle
value that the source appends to the first line is left out. -/
def ServiceMain.afterWait (w : Service) : Service :=
  let w :=
    if w.bDebug then w
    else logfile w none "stop event signaled. status = "
  let w := logfile w none "  stop event "
  WriteEventLogEntry w "SystemD-Service-Exec" "Service exit." EventType.EVENTLOG_ERROR_TYPE

/-! ## More sample inputs -/

/-- A host that rejects every status publication. -/
def hostRejectsStatus : Host := { hostOk with SetServiceStatus := fun _ _ => false }

/-- A host that refuses to register the control handler, with last error
1056, and whose event-log calls leave the last error alone. -/
def hostNoHandler : Host :=
  { hostOk with RegisterServiceCtrlHandler := none, registrationError := 1056 }

/-- A host that refuses to create the stop event. -/
def hostNoEvent : Host := { hostOk with CreateEvent := false }

/-- The running service after a successful `Stop`: its state is `SERVICE_STOPPED`. -/
def stopped : Service := (Stop running cbOk).1

/-- A service constructed with `fCanStop`, without `fCanPauseContinue`, and
started. -/
def runningNoPause : Service :=
  (Start (CServiceBase hostOk (some "svc") true true false false) [] (fun _ => cbOk)).1

/-- A callback that re-reports StopPending once and then throws. -/
def cbReportThenFail (f : Failure) : Callback :=
  { reports := [{ dwCurrentState := SERVICE_STOP_PENDING, dwWin32ExitCode := 0, dwWaitHint := 3000 }]
    outcome := some f }

/-- A freshly constructed service on a host that rejects every publication. -/
def freshRejected : Service := CServiceBase hostRejectsStatus (some "svc") true true true true

/-- Two states that agree on everything the transition methods read and write
in the service (name, status handle, status record, stop event, check-point
counter) and whose published reports, beyond the prefixes `p` and `q`, are the
same. They may differ in the rest of the trace and in the event-source count. -/
def SameService (p q : List SERVICE_STATUS) (a b : Service) : Prop :=
  a.m_name = b.m_name ∧ a.m_statusHandle = b.m_statusHandle ∧ a.m_status = b.m_status ∧
    a.hSvcStopEvent = b.hSvcStopEvent ∧ a.dwCheckPoint = b.dwCheckPoint ∧
    ∃ xs, published a.trace = p ++ xs ∧ published b.trace = q ++ xs

/-- The state in which a transition method invokes its callback: after the
announcement on the log stream and, except for Shutdown, the pending report. -/
def Transition.before (w : Service) : Transition → Service
  | Transition.Start _ _ =>
    SetServiceStatus (logfile w (some LogLevel.Info) ("Start Service " ++ w.m_name))
      SERVICE_START_PENDING NO_ERROR defaultWaitHint
  | Transition.Stop _ =>
    SetServiceStatus (logfile w (some LogLevel.Info) ("Start Service " ++ w.m_name))
      SERVICE_STOP_PENDING NO_ERROR defaultWaitHint
  | Transition.Pause _ =>
    SetServiceStatus (logfile w (some LogLevel.Info) ("Pause Service " ++ w.m_name))
      SERVICE_PAUSE_PENDING NO_ERROR defaultWaitHint
  | Transition.Continue _ =>
    SetServiceStatus (logfile w (some LogLevel.Info) ("Continue Service " ++ w.m_name))
      SERVICE_CONTINUE_PENDING NO_ERROR defaultWaitHint
  | Transition.Shutdown _ =>
    logfile w (some LogLevel.Info) ("Shutdown Service " ++ w.m_name)

/-- The state in which the callback of a transition returns or throws: the
state in which it was invoked, followed by its own re-reports. -/
def Transition.afterCallback (w : Service) (t : Transition) : Service :=
  (runCallback (t.before w) t.callback).1

/-- The deliveries under which a stopped service stays stopped: Stop unless
its callback throws an unclassified object, Shutdown when its callback
succeeds or makes no re-report, Interrogate and the other codes; never Pause
or Continue. -/
def keepsStopped (c : ControlCode × Callback) : Prop :=
  match c.1 with
  | ControlCode.SERVICE_CONTROL_STOP => c.2.outcome ≠ some Failure.unknown
  | ControlCode.SERVICE_CONTROL_SHUTDOWN => c.2.outcome = none ∨ c.2.reports = []
  | ControlCode.SERVICE_CONTROL_INTERROGATE => True
  | ControlCode.other _ => True
  | ControlCode.SERVICE_CONTROL_PAUSE => False
  | ControlCode.SERVICE_CONTROL_CONTINUE => False

/-- Everything in a trace but the event-log entries: the log lines, the status
reports and the stop-event signals. -/
def withoutEventLog (trace : List Effect) : List Effect :=
  trace.filter fun e =>
    match e with
    | Effect.ReportEvent _ _ _ => false
    | _ => true

/-- A freshly constructed service on a host that refuses to register the
control handler. -/
def freshNoHandler : Service := CServiceBase hostNoHandler (some "svc") true true true true

/-- A freshly constructed service on a host that refuses to create the stop
event. -/
def freshNoEvent : Service := CServiceBase hostNoEvent (some "svc") true true true true

/-- The running service on a host that grants no event source. -/
def runningNoEventSource : Service := (Start freshNoEventSource [] (fun _ => cbOk)).1

/-- The informational lines (severity `Info()`) of a trace, in order. -/
def infoLines (trace : List Effect) : List String :=
  trace.filterMap fun e =>
    match e with
    | Effect.logline (some LogLevel.Info) text => some text
    | _ => none

/-- One step in the life of a service: a call of a transition method, the
delivery of a control code, or a status report. -/
inductive Step where
  | transition (t : Transition)
  | control (dwCtrl : ControlCode) (cb : Callback)
  | report (r : Report)

/-- Executes one step. -/
def Step.run (w : Service) : Step → Ret
  | Step.transition t => t.run w
  | Step.control dwCtrl cb => ServiceCtrlHandler w dwCtrl cb
  | Step.report r => ServiceBase.report w r.dwCurrentState r.dwWin32ExitCode r.dwWaitHint

/-- Executes a sequence of steps one after the other; an exception that leaves
a step ends the sequence there. -/
def runSteps (w : Service) : List Step → Ret
  | [] => (w, none)
  | s :: ss =>
    match s.run w with
    | (w, none) => runSteps w ss
    | (w, some f) => (w, some f)

/-- A host that refuses to register the control handler, with last error
1056, and whose event-log calls fail and leave the last error 5. -/
def hostNoHandlerLogFails : Host :=
  { hostNoHandler with
    RegisterEventSource := fun _ => false
    eventLogLastError := fun _ => some 5 }

/-- A freshly constructed service on that host. -/
def freshNoHandlerLogFails : Service :=
  CServiceBase hostNoHandlerLogFails (some "svc") true true true true

/-- The states a service can be in: those reached from a freshly constructed
service by status reports, calls of the transition methods, deliveries of
control codes and the entry point `ServiceMain` (up to its wait and after it),
with arbitrary callback behaviour and host answers; and, with `other`, every
state that differs from such a state only outside the status record, the
check-point counter and the published reports (the log and event-log entries,
the debug flag, the status handle, the stop event, whoever writes them). -/
inductive Reached : Service → Prop where
  | init (host : Host) (pszServiceName : Option String) (suppliedLog : Bool)
      (fCanStop fCanShutdown fCanPauseContinue : Bool) :
      Reached (CServiceBase host pszServiceName suppliedLog fCanStop fCanShutdown fCanPauseContinue)
  | report (w : Service) (r : Report) :
      Reached w → Reached (SetServiceStatus w r.dwCurrentState r.dwWin32ExitCode r.dwWaitHint)
  | call (w : Service) (t : Transition) :
      Reached w → Reached (t.run w).1
  | control (w : Service) (dwCtrl : ControlCode) (cb : Callback) :
      Reached w → Reached (ServiceCtrlHandler w dwCtrl cb).1
  | main (w : Service) (pszArgv : List String) (OnStart : List String → Callback) :
      Reached w → Reached (ServiceMain w pszArgv OnStart).1
  | afterWait (w : Service) :
      Reached w → Reached (ServiceMain.afterWait w)
  | other (w v : Service) :
      Reached w → v.m_status = w.m_status → v.dwCheckPoint = w.dwCheckPoint →
      published v.trace = published w.trace → Reached v

/-- A service that went through `ServiceMain` on a host that grants everything
(it is Running and waits for its stop event) and was then paused by the Pause
control code. -/
def pausedAfterMain : Service :=
  (ServiceCtrlHandler (ServiceMain fresh [] (fun _ => cbOk)).1
    ControlCode.SERVICE_CONTROL_PAUSE cbOk).1

/-! ## Basic facts about the helper functions -/

@[simp] theorem SetServiceStatus_state (w : Service) (s : ServiceState) (e h : Nat) :
    (SetServiceStatus w s e h).m_status.dwCurrentState = s := rfl

@[simp] theorem SetServiceStatus_exitCode (w : Service) (s : ServiceState) (e h : Nat) :
    (SetServiceStatus w s e h).m_status.dwWin32ExitCode = e := rfl

@[simp] theorem SetServiceStatus_stopEvent (w : Service) (s : ServiceState) (e h : Nat) :
    (SetServiceStatus w s e h).hSvcStopEvent = w.hSvcStopEvent := rfl

@[simp] theorem SetServiceStatus_nRegisterEventSource (w : Service) (s : ServiceState) (e h : Nat) :
    (SetServiceStatus w s e h).nRegisterEventSource = w.nRegisterEventSource := rfl

@[simp] theorem SetServiceStatus_host (w : Service) (s : ServiceState) (e h : Nat) :
    (SetServiceStatus w s e h).host = w.host := rfl

@[simp] theorem SetServiceStatus_name (w : Service) (s : ServiceState) (e h : Nat) :
    (SetServiceStatus w s e h).m_name = w.m_name := rfl

theorem SetServiceStatus_checkPoint_final (w : Service) (s : ServiceState) (e h : Nat)
    (hs : s = SERVICE_RUNNING ∨ s = SERVICE_STOPPED) :
    (SetServiceStatus w s e h).m_status.dwCheckPoint = 0 := by
  simp [SetServiceStatus, hs]

theorem SetServiceStatus_checkPoint_other (w : Service) (s : ServiceState) (e h : Nat)
    (hs : ¬ (s = SERVICE_RUNNING ∨ s = SERVICE_STOPPED)) :
    (SetServiceStatus w s e h).m_status.dwCheckPoint = w.dwCheckPoint := by
  simp [SetServiceStatus, hs]

theorem SetServiceStatus_counter_other (w : Service) (s : ServiceState) (e h : Nat)
    (hs : ¬ (s = SERVICE_RUNNING ∨ s = SERVICE_STOPPED)) :
    (SetServiceStatus w s e h).dwCheckPoint = (w.dwCheckPoint + 1) % DWORD_SIZE := by
  simp [SetServiceStatus, hs]

theorem SetServiceStatus_counter_final (w : Service) (s : ServiceState) (e h : Nat)
    (hs : s = SERVICE_RUNNING ∨ s = SERVICE_STOPPED) :
    (SetServiceStatus w s e h).dwCheckPoint = w.dwCheckPoint := by
  simp [SetServiceStatus, hs]

@[simp] theorem SetServiceStatus_eventLog (w : Service) (s : ServiceState) (e h : Nat) :
    eventLog (SetServiceStatus w s e h).trace = eventLog w.trace := by
  simp [SetServiceStatus, eventLog, List.filterMap_append]

@[simp] theorem logfile_eventLog (w : Service) (l : Option LogLevel) (t : String) :
    eventLog (logfile w l t).trace = eventLog w.trace := by
  simp [logfile, eventLog, List.filterMap_append]

/-- The re-reports of a callback, applied in order. -/
theorem runCallback_fst (w : Service) (cb : Callback) :
    (runCallback w cb).1 =
      cb.reports.foldl (fun w r => SetServiceStatus w r.dwCurrentState r.dwWin32ExitCode r.dwWaitHint) w :=
  rfl

@[simp] theorem runCallback_snd (w : Service) (cb : Callback) :
    (runCallback w cb).2 = cb.outcome := rfl

/-- A property of the state that every status report keeps is kept by a callback. -/
theorem runCallback_keeps (P : Service → Prop)
    (hset : ∀ w s e h, P w → P (SetServiceStatus w s e h))
    (w : Service) (cb : Callback) (hw : P w) : P (runCallback w cb).1 := by
  rw [runCallback_fst]
  generalize cb.reports = rs
  induction rs generalizing w with
  | nil => exact hw
  | cons r rs ih => exact ih _ (hset w _ _ _ hw)

/-- A property of the state kept by the four primitive operations is kept by
every transition method, whatever the callback does. -/
theorem transition_keeps (P : Service → Prop)
    (hlog : ∀ w l t, P w → P (logfile w l t))
    (hset : ∀ w s e h, P w → P (SetServiceStatus w s e h))
    (hev : ∀ w a b c, P w → P (WriteEventLogEntry w a b c))
    (hse : ∀ w, P w → P (SetEvent w))
    (t : Transition) (w : Service) (hw : P w) : P (t.run w).1 := by
  have hcb : ∀ w cb, P w → P (runCallback w cb).1 := fun w cb h => runCallback_keeps P hset w cb h
  have herr : ∀ w a b, P w → P (WriteErrorLogEntry w a b) := fun w a b h => hev _ _ _ _ h
  cases t with
  | Start pszArgv OnStart =>
    have h1 := hcb _ (OnStart pszArgv) (hset _ SERVICE_START_PENDING NO_ERROR defaultWaitHint
      (hlog w (some LogLevel.Info) ("Start Service " ++ w.m_name) hw))
    simp only [Transition.run, Start]
    rcases ho : (OnStart pszArgv).outcome with _ | f
    · simp only [runCallback, ho]
      exact hset _ _ _ _ h1
    · cases f <;> simp only [runCallback, ho] <;>
        first
        | exact hset _ _ _ _ (hlog _ _ _ (herr _ _ _ h1))
        | exact hset _ _ _ _ (hlog _ _ _ (hev _ _ _ _ h1))
  | Stop OnStop =>
    have h1 := hcb _ OnStop (hset _ SERVICE_STOP_PENDING NO_ERROR defaultWaitHint
      (hlog w (some LogLevel.Info) ("Start Service " ++ w.m_name) hw))
    simp only [Transition.run, Stop]
    rcases ho : OnStop.outcome with _ | f
    · simp only [runCallback, ho]
      exact hse _ (hset _ _ _ _ h1)
    · cases f <;> simp only [runCallback, ho] <;>
        first
        | exact hset _ _ _ _ (hlog _ _ _ (herr _ _ _ h1))
        | exact hset _ _ _ _ (hlog _ _ _ (hev _ _ _ _ h1))
        | exact h1
  | Pause OnPause =>
    have h1 := hcb _ OnPause (hset _ SERVICE_PAUSE_PENDING NO_ERROR defaultWaitHint
      (hlog w (some LogLevel.Info) ("Pause Service " ++ w.m_name) hw))
    simp only [Transition.run, Pause]
    rcases ho : OnPause.outcome with _ | f
    · simp only [runCallback, ho]
      exact hset _ _ _ _ h1
    · cases f <;> simp only [runCallback, ho] <;>
        first
        | exact hset _ _ _ _ (hlog _ _ _ (herr _ _ _ h1))
        | exact hset _ _ _ _ (hlog _ _ _ (hev _ _ _ _ h1))
        | exact hlog _ _ _ (hev _ _ _ _ h1)
  | Continue OnContinue =>
    have h1 := hcb _ OnContinue (hset _ SERVICE_CONTINUE_PENDING NO_ERROR defaultWaitHint
      (hlog w (some LogLevel.Info) ("Continue Service " ++ w.m_name) hw))
    simp only [Transition.run, Continue]
    rcases ho : OnContinue.outcome with _ | f
    · simp only [runCallback, ho]
      exact hset _ _ _ _ h1
    · cases f <;> simp only [runCallback, ho] <;>
        first
        | exact hset _ _ _ _ (hlog _ _ _ (herr _ _ _ h1))
        | exact hset _ _ _ _ (hlog _ _ _ (hev _ _ _ _ h1))
  | Shutdown OnShutdown =>
    have h1 := hcb _ OnShutdown (hlog w (some LogLevel.Info) ("Shutdown Service " ++ w.m_name) hw)
    simp only [Transition.run, Shutdown]
    rcases ho : OnShutdown.outcome with _ | f
    · simp only [runCallback, ho]
      exact hset _ _ _ _ h1
    · cases f <;> simp only [runCallback, ho] <;>
        first
        | exact hlog _ _ _ (herr _ _ _ h1)
        | exact hlog _ _ _ (hev _ _ _ _ h1)

/-- A property that holds after construction and is kept by the four primitive
operations holds in every reachable state. -/
theorem reachable_keeps (P : Service → Prop)
    (hinit : ∀ host name l a b c, P (CServiceBase host name l a b c))
    (hlog : ∀ w l t, P w → P (logfile w l t))
    (hset : ∀ w s e h, P w → P (SetServiceStatus w s e h))
    (hev : ∀ w a b c, P w → P (WriteEventLogEntry w a b c))
    (hse : ∀ w, P w → P (SetEvent w))
    (w : Service) (hw : Reachable w) : P w := by
  induction hw with
  | init host name l a b c => exact hinit host name l a b c
  | report w r _ ih => exact hset _ _ _ _ ih
  | call w t _ ih => exact transition_keeps P hlog hset hev hse t w ih

/-- A transition whose callback succeeds returns normally in its terminal state. -/
theorem transition_success (t : Transition) (w : Service)
    (h : t.callback.outcome = none) :
    (t.run w).2 = none ∧ (t.run w).1.m_status.dwCurrentState = t.terminal := by
  cases t <;> simp only [Transition.callback] at h <;>
    simp [Transition.run, Transition.terminal, Start, Stop, Pause, Continue, Shutdown,
      runCallback, h, SetEvent]

theorem runSeq_cons_of_none (w : Service) (t : Transition) (ts : List Transition)
    (h : (t.run w).2 = none) : runSeq w (t :: ts) = runSeq (t.run w).1 ts := by
  rcases hr : t.run w with ⟨w1, o⟩
  rw [hr] at h
  simp only at h
  subst h
  simp [runSeq, hr]

theorem runCallback_eventLog (w : Service) (cb : Callback) :
    eventLog (runCallback w cb).1.trace = eventLog w.trace :=
  runCallback_keeps (fun x => eventLog x.trace = eventLog w.trace)
    (fun x s e h hx => (SetServiceStatus_eventLog x s e h).trans hx) w cb rfl

theorem runCallback_nRegisterEventSource (w : Service) (cb : Callback) :
    (runCallback w cb).1.nRegisterEventSource = w.nRegisterEventSource :=
  runCallback_keeps (fun x => x.nRegisterEventSource = w.nRegisterEventSource)
    (fun _ _ _ _ hx => hx) w cb rfl

theorem runCallback_host (w : Service) (cb : Callback) :
    (runCallback w cb).1.host = w.host :=
  runCallback_keeps (fun x => x.host = w.host) (fun _ _ _ _ hx => hx) w cb rfl

theorem runCallback_name (w : Service) (cb : Callback) :
    (runCallback w cb).1.m_name = w.m_name :=
  runCallback_keeps (fun x => x.m_name = w.m_name) (fun _ _ _ _ hx => hx) w cb rfl

theorem WriteEventLogEntry_eventLog (w : Service) (n m : String) (t : EventType) :
    eventLog (WriteEventLogEntry w n m t).trace =
      eventLog w.trace ++
        (if w.host.RegisterEventSource w.nRegisterEventSource then [(n, m, t)] else []) := by
  unfold WriteEventLogEntry
  cases w.host.RegisterEventSource w.nRegisterEventSource <;>
    simp [eventLog, List.filterMap_append]

/-! ## The claims -/

/-- C1: for every initial status and every non-empty sequence of transition
calls (Start, Stop, Pause, Continue, Shutdown) whose callbacks all succeed, the
sequence runs to its end and `dwCurrentState` is then the terminal state of the
last call: Running for Start and Continue, Stopped for Stop and Shutdown,
Paused for Pause. -/
theorem C1_successful_sequence_terminal_state (w : Service) (ts : List Transition)
    (hne : ts ≠ []) (hok : ∀ t ∈ ts, t.callback.outcome = none) :
    (runSeq w ts).2 = none ∧
      (runSeq w ts).1.m_status.dwCurrentState = (ts.getLast hne).terminal := by
  induction ts generalizing w with
  | nil => exact absurd rfl hne
  | cons t ts ih =>
    have ht := transition_success t w (hok t (List.mem_cons_self t ts))
    rw [runSeq_cons_of_none w t ts ht.1]
    cases ts with
    | nil => simpa [runSeq] using ht.2
    | cons u us =>
      have hrest : ∀ x ∈ u :: us, x.callback.outcome = none :=
        fun x hx => hok x (List.mem_cons_of_mem t hx)
      simpa using ih (t.run w).1 (List.cons_ne_nil u us) hrest

/-- C1 at a concrete input: from the running service, Pause then Continue,
both succeeding, ends in Running. -/
theorem C1_witness :
    (∀ t ∈ pauseThenContinue, t.callback.outcome = none) ∧
      (runSeq running pauseThenContinue).2 = none ∧
      (runSeq running pauseThenContinue).1.m_status.dwCurrentState = SERVICE_RUNNING :=
  have hok : ∀ t ∈ pauseThenContinue, t.callback.outcome = none := by
    intro t ht
    simp only [pauseThenContinue, List.mem_cons, List.mem_singleton, List.not_mem_nil,
      or_false] at ht
    rcases ht with rfl | rfl <;> rfl
  ⟨hok, C1_successful_sequence_terminal_state running pauseThenContinue
    (List.cons_ne_nil _ _) hok⟩

/-- C2 as stated fails: when `OnStart` throws a `std::exception`, Start reports
Stopped with exit code `NO_ERROR` (0), so "Stopped and a non-zero exit code"
does not hold. -/
theorem C2_counterexample :
    ¬ ((Start fresh [] (fun _ => cbFail (Failure.described "boom"))).1.m_status.dwCurrentState
          = SERVICE_STOPPED ∧
        (Start fresh [] (fun _ => cbFail (Failure.described "boom"))).1.m_status.dwWin32ExitCode
          ≠ 0) := by
  decide

/-- C2, amended: for every initial status and every kind of `OnStart` failure,
Start returns normally with `dwCurrentState` Stopped; the exit code is the
thrown code for a typed failure and `NO_ERROR` (0) for a described or an
unclassified failure, so it is non-zero exactly for a non-zero typed code. -/
theorem C2_start_failure_reports_stopped (w : Service) (pszArgv : List String)
    (OnStart : List String → Callback) (f : Failure)
    (h : (OnStart pszArgv).outcome = some f) :
    (Start w pszArgv OnStart).2 = none ∧
      (Start w pszArgv OnStart).1.m_status.dwCurrentState = SERVICE_STOPPED ∧
      (Start w pszArgv OnStart).1.m_status.dwWin32ExitCode =
        (match f with
          | Failure.typed dwError => dwError
          | Failure.described _ => NO_ERROR
          | Failure.unknown => NO_ERROR) ∧
      ((Start w pszArgv OnStart).1.m_status.dwWin32ExitCode ≠ 0 ↔
        ∃ dwError, f = Failure.typed dwError ∧ dwError ≠ 0) := by
  cases f <;> simp [Start, runCallback, h, NO_ERROR]

/-- C2 (amended) at concrete inputs: a typed failure with code 5. -/
theorem C2_witness :
    ((fun _ : List String => cbFail (Failure.typed 5)) []).outcome = some (Failure.typed 5) ∧
      (Start fresh [] (fun _ => cbFail (Failure.typed 5))).1.m_status.dwCurrentState
        = SERVICE_STOPPED ∧
      (Start fresh [] (fun _ => cbFail (Failure.typed 5))).1.m_status.dwWin32ExitCode = 5 :=
  ⟨rfl,
    (C2_start_failure_reports_stopped fresh [] (fun _ => cbFail (Failure.typed 5))
      (Failure.typed 5) rfl).2.1,
    (C2_start_failure_reports_stopped fresh [] (fun _ => cbFail (Failure.typed 5))
      (Failure.typed 5) rfl).2.2.1⟩

/-- C3 as stated fails: on a host that grants no event source,
`WriteEventLogEntry` skips `ReportEvent`, so a Start whose `OnStart` throws the
code 5 writes no event-log entry at all (claimed: exactly one). -/
theorem C3_counterexample :
    eventLog (Start freshNoEventSource [] (fun _ => cbFail (Failure.typed 5))).1.trace = [] := by
  decide

/-- C3, amended: for every initial status and every failure code `E`, if
`OnStart` throws the typed code `E` then Start returns normally with
`dwCurrentState` Stopped, exit code `E` and check-point 0; and the event-log
entries written during the call are exactly one error-severity entry with the
message "Service Start failed w/err 0x" followed by `E` as `%08lx` when the
host grants the event source, and none when it refuses it. -/
theorem C3_start_typed_failure (w : Service) (pszArgv : List String)
    (OnStart : List String → Callback) (E : Nat)
    (h : (OnStart pszArgv).outcome = some (Failure.typed E)) :
    (Start w pszArgv OnStart).2 = none ∧
      (Start w pszArgv OnStart).1.m_status.dwCurrentState = SERVICE_STOPPED ∧
      (Start w pszArgv OnStart).1.m_status.dwWin32ExitCode = E ∧
      (Start w pszArgv OnStart).1.m_status.dwCheckPoint = 0 ∧
      eventLog (Start w pszArgv OnStart).1.trace =
        eventLog w.trace ++
          (if w.host.RegisterEventSource w.nRegisterEventSource then
            [(w.m_name, "Service Start failed w/err 0x" ++ hex08 E,
              EventType.EVENTLOG_ERROR_TYPE)]
          else []) ∧
      ("0x" ++ hex08 E).data <:+: ("Service Start failed w/err 0x" ++ hex08 E).data := by
  refine ⟨?_, ?_, ?_, ?_, ?_, ?_⟩
  · simp [Start, runCallback, h]
  · simp [Start, runCallback, h]
  · simp [Start, runCallback, h]
  · simp only [Start, runCallback, h]
    exact SetServiceStatus_checkPoint_final _ _ _ _ (Or.inr rfl)
  · have hS : Start w pszArgv OnStart =
        (SetServiceStatus
          (logfile
            (WriteErrorLogEntry
              (runCallback
                (SetServiceStatus (logfile w (some LogLevel.Info) ("Start Service " ++ w.m_name))
                  SERVICE_START_PENDING NO_ERROR defaultWaitHint) (OnStart pszArgv)).1
              "Service Start" E)
            (some LogLevel.Error)
            ("Service Start " ++
              (WriteErrorLogEntry
                (runCallback
                  (SetServiceStatus (logfile w (some LogLevel.Info) ("Start Service " ++ w.m_name))
                    SERVICE_START_PENDING NO_ERROR defaultWaitHint) (OnStart pszArgv)).1
                "Service Start" E).m_name ++ " failed error code = " ++ toString E))
          SERVICE_STOPPED E defaultWaitHint, none) := by
      simp only [Start, runCallback, h]
    rw [hS, SetServiceStatus_eventLog, logfile_eventLog, WriteErrorLogEntry,
      WriteEventLogEntry_eventLog, runCallback_eventLog, runCallback_nRegisterEventSource,
      runCallback_host, runCallback_name, SetServiceStatus_eventLog, logfile_eventLog]
    rfl
  · refine ⟨"Service Start failed w/err ".data, [], ?_⟩
    simp [String.data_append]

/-- C3 (amended) at concrete inputs: the code 0x80070005 on a host that grants
the event source. -/
theorem C3_witness :
    ((fun _ : List String => cbFail (Failure.typed 2147942405)) []).outcome
        = some (Failure.typed 2147942405) ∧
      (Start fresh [] (fun _ => cbFail (Failure.typed 2147942405))).1.m_status.dwWin32ExitCode
        = 2147942405 ∧
      eventLog (Start fresh [] (fun _ => cbFail (Failure.typed 2147942405))).1.trace =
        [("svc", "Service Start failed w/err 0x80070005", EventType.EVENTLOG_ERROR_TYPE)] :=
  ⟨rfl,
    (C3_start_typed_failure fresh [] (fun _ => cbFail (Failure.typed 2147942405))
      2147942405 rfl).2.2.1,
    (C3_start_typed_failure fresh [] (fun _ => cbFail (Failure.typed 2147942405))
      2147942405 rfl).2.2.2.2.1.trans (by decide)⟩

theorem runCallback_eq (w : Service) (cb : Callback) :
    runCallback w cb = ((runCallback w cb).1, cb.outcome) := rfl

@[simp] theorem logfile_stopEvent (w : Service) (l : Option LogLevel) (t : String) :
    (logfile w l t).hSvcStopEvent = w.hSvcStopEvent := rfl

@[simp] theorem WriteEventLogEntry_stopEvent (w : Service) (n m : String) (t : EventType) :
    (WriteEventLogEntry w n m t).hSvcStopEvent = w.hSvcStopEvent := by
  unfold WriteEventLogEntry
  cases w.host.RegisterEventSource w.nRegisterEventSource <;> rfl

@[simp] theorem WriteErrorLogEntry_stopEvent (w : Service) (n : String) (e : Nat) :
    (WriteErrorLogEntry w n e).hSvcStopEvent = w.hSvcStopEvent := by
  simp [WriteErrorLogEntry]

theorem runCallback_stopEvent (w : Service) (cb : Callback) :
    (runCallback w cb).1.hSvcStopEvent = w.hSvcStopEvent :=
  runCallback_keeps (fun x => x.hSvcStopEvent = w.hSvcStopEvent) (fun _ _ _ _ hx => hx) w cb rfl

/-- Stop after a typed or a described failure: the method returns normally, the
state read on entry is reported again and the stop event is left alone. -/
theorem Stop_caught_failure (w : Service) (OnStop : Callback) (f : Failure)
    (h : OnStop.outcome = some f) (hf : f ≠ Failure.unknown) :
    (Stop w OnStop).2 = none ∧
      (Stop w OnStop).1.m_status.dwCurrentState = w.m_status.dwCurrentState ∧
      (Stop w OnStop).1.hSvcStopEvent = w.hSvcStopEvent := by
  cases f with
  | typed dwError =>
    simp only [Stop]
    rw [runCallback_eq, h]
    simp [runCallback_stopEvent]
  | described what =>
    simp only [Stop]
    rw [runCallback_eq, h]
    simp [runCallback_stopEvent]
  | unknown => exact absurd rfl hf

/-- Every transition method other than Stop returns normally whatever its
callback does, and Stop does unless the callback throws an object that is
neither a `DWORD` nor a `std::exception`. -/
theorem transition_returns_normally (t : Transition) (w : Service)
    (h : ∀ OnStop, t = Transition.Stop OnStop → OnStop.outcome ≠ some Failure.unknown) :
    (t.run w).2 = none := by
  cases t with
  | Start pszArgv OnStart =>
    rcases ho : (OnStart pszArgv).outcome with _ | f
    · simp [Transition.run, Start, runCallback, ho]
    · cases f <;> simp [Transition.run, Start, runCallback, ho]
  | Stop OnStop =>
    have hne := h OnStop rfl
    rcases ho : OnStop.outcome with _ | f
    · simp [Transition.run, Stop, runCallback, ho]
    · cases f
      · simp [Transition.run, Stop, runCallback, ho]
      · simp [Transition.run, Stop, runCallback, ho]
      · exact absurd ho hne
  | Pause OnPause =>
    rcases ho : OnPause.outcome with _ | f
    · simp [Transition.run, Pause, runCallback, ho]
    · cases f <;> simp [Transition.run, Pause, runCallback, ho]
  | Continue OnContinue =>
    rcases ho : OnContinue.outcome with _ | f
    · simp [Transition.run, Continue, runCallback, ho]
    · cases f <;> simp [Transition.run, Continue, runCallback, ho]
  | Shutdown OnShutdown =>
    rcases ho : OnShutdown.outcome with _ | f
    · simp [Transition.run, Shutdown, runCallback, ho]
    · cases f <;> simp [Transition.run, Shutdown, runCallback, ho]

/-- Pause after a typed or a described failure: the method returns normally
and reports Running, with check-point 0. -/
theorem Pause_caught_failure (w : Service) (OnPause : Callback) (f : Failure)
    (h : OnPause.outcome = some f) (hf : f ≠ Failure.unknown) :
    (Pause w OnPause).2 = none ∧
      (Pause w OnPause).1.m_status.dwCurrentState = SERVICE_RUNNING ∧
      (Pause w OnPause).1.m_status.dwCheckPoint = 0 := by
  cases f with
  | typed dwError =>
    simp only [Pause]
    rw [runCallback_eq, h]
    exact ⟨rfl, rfl, SetServiceStatus_checkPoint_final _ _ _ _ (Or.inl rfl)⟩
  | described what =>
    simp only [Pause]
    rw [runCallback_eq, h]
    exact ⟨rfl, rfl, SetServiceStatus_checkPoint_final _ _ _ _ (Or.inl rfl)⟩
  | unknown => exact absurd rfl hf

@[simp] theorem logfile_status (w : Service) (l : Option LogLevel) (t : String) :
    (logfile w l t).m_status = w.m_status := rfl

@[simp] theorem WriteEventLogEntry_m_status (w : Service) (n m : String) (t : EventType) :
    (WriteEventLogEntry w n m t).m_status = w.m_status := by
  unfold WriteEventLogEntry
  cases w.host.RegisterEventSource w.nRegisterEventSource <;> rfl

@[simp] theorem WriteErrorLogEntry_m_status (w : Service) (n : String) (e : Nat) :
    (WriteErrorLogEntry w n e).m_status = w.m_status := by
  simp [WriteErrorLogEntry]

theorem runCallback_no_reports (w : Service) (cb : Callback) (h : cb.reports = []) :
    (runCallback w cb).1 = w := by
  simp [runCallback, h]

/-- Outside the two defective paths (an unclassified failure in Pause or in
Stop), a transition started in a state that is not pending returns normally in
a state that is not pending; for a failed Shutdown, which reports nothing, this
needs that the callback itself made no re-report. -/
theorem transition_not_pending (t : Transition) (w : Service)
    (hw : w.m_status.dwCurrentState.isPending = false)
    (hPause : ∀ cb, t = Transition.Pause cb → cb.outcome ≠ some Failure.unknown)
    (hStop : ∀ cb, t = Transition.Stop cb → cb.outcome ≠ some Failure.unknown)
    (hShutdown : ∀ cb, t = Transition.Shutdown cb → cb.outcome ≠ none → cb.reports = []) :
    (t.run w).2 = none ∧ (t.run w).1.m_status.dwCurrentState.isPending = false := by
  cases t with
  | Start pszArgv OnStart =>
    rcases ho : (OnStart pszArgv).outcome with _ | f
    · simp [Transition.run, Start, runCallback, ho, ServiceState.isPending]
    · cases f <;> simp [Transition.run, Start, runCallback, ho, ServiceState.isPending]
  | Stop OnStop =>
    rcases ho : OnStop.outcome with _ | f
    · simp [Transition.run, Stop, runCallback, ho, ServiceState.isPending, SetEvent]
    · cases f
      · simpa [Transition.run, Stop, runCallback, ho] using hw
      · simpa [Transition.run, Stop, runCallback, ho] using hw
      · exact absurd ho (hStop OnStop rfl)
  | Pause OnPause =>
    rcases ho : OnPause.outcome with _ | f
    · simp [Transition.run, Pause, runCallback, ho, ServiceState.isPending]
    · cases f
      · simp [Transition.run, Pause, runCallback, ho, ServiceState.isPending]
      · simp [Transition.run, Pause, runCallback, ho, ServiceState.isPending]
      · exact absurd ho (hPause OnPause rfl)
  | Continue OnContinue =>
    rcases ho : OnContinue.outcome with _ | f
    · simp [Transition.run, Continue, runCallback, ho, ServiceState.isPending]
    · cases f <;> simp [Transition.run, Continue, runCallback, ho, ServiceState.isPending]
  | Shutdown OnShutdown =>
    rcases ho : OnShutdown.outcome with _ | f
    · simp [Transition.run, Shutdown, runCallback, ho, ServiceState.isPending]
    · have hr := hShutdown OnShutdown rfl (by simp [ho])
      cases f <;> simpa [Transition.run, Shutdown, runCallback, ho, hr] using hw

/-- C4, the code at the failing input: the service is Running and `OnStop`
throws an object that is neither a `DWORD` nor a `std::exception`. Stop has no
`catch (...)` clause, so the state stays at the StopPending it reported before
the callback instead of going back to Running (the stop event is untouched). -/
theorem C4_stop_unclassified_failure_not_restored :
    running.m_status.dwCurrentState = SERVICE_RUNNING ∧
      (Stop running (cbFail Failure.unknown)).1.m_status.dwCurrentState = SERVICE_STOP_PENDING ∧
      (Stop running (cbFail Failure.unknown)).1.hSvcStopEvent = some false := by
  decide

/-- C5, the code at the failing input: an unclassified failure of `OnStop`
leaves Stop as an exception, since Stop has no `catch (...)` clause. -/
theorem C5_stop_unclassified_failure_escapes :
    (Stop running (cbFail Failure.unknown)).2 = some Failure.unknown := by
  decide

/-- C6, the code at the failing input: the service is Running and `OnPause`
throws an unclassified object. The `catch (...)` clause of Pause only logs, so
Pause returns with the state PausePending and the check-point 2 of the pending
report, not Running with check-point 0. -/
theorem C6_pause_unclassified_failure_stays_pending :
    (Pause running (cbFail Failure.unknown)).2 = none ∧
      (Pause running (cbFail Failure.unknown)).1.m_status.dwCurrentState
        = SERVICE_PAUSE_PENDING ∧
      (Pause running (cbFail Failure.unknown)).1.m_status.dwCheckPoint = 2 := by
  decide

/-- C7: for every initial status and every kind of `OnContinue` failure (typed,
described, unclassified), Continue returns normally with `dwCurrentState`
Paused; in particular the state is neither ContinuePending nor Running. -/
theorem C7_continue_failure_reports_paused (w : Service) (OnContinue : Callback)
    (f : Failure) (h : OnContinue.outcome = some f) :
    (Continue w OnContinue).2 = none ∧
      (Continue w OnContinue).1.m_status.dwCurrentState = SERVICE_PAUSED ∧
      (Continue w OnContinue).1.m_status.dwCurrentState ≠ SERVICE_CONTINUE_PENDING ∧
      (Continue w OnContinue).1.m_status.dwCurrentState ≠ SERVICE_RUNNING := by
  cases f <;> simp [Continue, runCallback, h]

/-- C7 at a concrete input: an unclassified failure of `OnContinue` on the
running service. -/
theorem C7_witness :
    (cbFail Failure.unknown).outcome = some Failure.unknown ∧
      (Continue running (cbFail Failure.unknown)).2 = none ∧
      (Continue running (cbFail Failure.unknown)).1.m_status.dwCurrentState = SERVICE_PAUSED :=
  ⟨rfl,
    (C7_continue_failure_reports_paused running (cbFail Failure.unknown) Failure.unknown rfl).1,
    (C7_continue_failure_reports_paused running (cbFail Failure.unknown) Failure.unknown rfl).2.1⟩

/-- C8, the code at the failing input: the state before the call is Running
(not pending), `OnPause` throws an unclassified object, and Pause returns
normally to its caller with the pending state PausePending. -/
theorem C8_pause_returns_in_pending_state :
    running.m_status.dwCurrentState.isPending = false ∧
      (Pause running (cbFail Failure.unknown)).2 = none ∧
      (Pause running (cbFail Failure.unknown)).1.m_status.dwCurrentState.isPending = true := by
  decide

/-! ## The check-point counter -/

theorem published_SetServiceStatus (w : Service) (s : ServiceState) (e h : Nat) :
    published (SetServiceStatus w s e h).trace =
      published w.trace ++ [(SetServiceStatus w s e h).m_status] := by
  simp [SetServiceStatus, published, List.filterMap_append]

theorem published_logfile (w : Service) (l : Option LogLevel) (t : String) :
    published (logfile w l t).trace = published w.trace := by
  simp [logfile, published, List.filterMap_append]

theorem published_WriteEventLogEntry (w : Service) (n m : String) (t : EventType) :
    published (WriteEventLogEntry w n m t).trace = published w.trace := by
  unfold WriteEventLogEntry
  cases w.host.RegisterEventSource w.nRegisterEventSource <;>
    simp [published, List.filterMap_append]

theorem published_SetEvent (w : Service) :
    published (SetEvent w).trace = published w.trace := by
  simp [SetEvent, published, List.filterMap_append]

theorem WriteEventLogEntry_status (w : Service) (n m : String) (t : EventType) :
    (WriteEventLogEntry w n m t).m_status = w.m_status ∧
      (WriteEventLogEntry w n m t).dwCheckPoint = w.dwCheckPoint := by
  unfold WriteEventLogEntry
  cases w.host.RegisterEventSource w.nRegisterEventSource <;> exact ⟨rfl, rfl⟩

theorem otherReports_SetServiceStatus_final (w : Service) (s : ServiceState) (e h : Nat)
    (hs : s = SERVICE_RUNNING ∨ s = SERVICE_STOPPED) :
    otherReports (SetServiceStatus w s e h).trace = otherReports w.trace := by
  simp only [otherReports, published_SetServiceStatus, List.filter_append, List.length_append,
    List.filter_cons, List.filter_nil, SetServiceStatus_state]
  simp [hs]

theorem otherReports_SetServiceStatus_other (w : Service) (s : ServiceState) (e h : Nat)
    (hs : ¬ (s = SERVICE_RUNNING ∨ s = SERVICE_STOPPED)) :
    otherReports (SetServiceStatus w s e h).trace = otherReports w.trace + 1 := by
  simp only [otherReports, published_SetServiceStatus, List.filter_append, List.length_append,
    List.filter_cons, List.filter_nil, SetServiceStatus_state]
  simp [hs]

/-- The invariant only looks at the counter, the record and the reports. -/
theorem CounterInv_transfer {w v : Service} (hw : CounterInv w)
    (hc : v.dwCheckPoint = w.dwCheckPoint) (hs : v.m_status = w.m_status)
    (hp : published v.trace = published w.trace) : CounterInv v := by
  refine ⟨?_, ?_, ?_, ?_, ?_⟩
  · rw [hc, hw.counter]
    simp [otherReports, hp]
  · rw [hc, hs]
    exact hw.next
  · rw [hp, hs]
    exact hw.last
  · rw [hp]
    exact hw.steps
  · rw [hp]
    exact hw.zero

theorem CounterInv_init (host : Host) (name : Option String) (l a b c : Bool) :
    CounterInv (CServiceBase host name l a b c) := by
  cases l <;>
    exact ⟨by simp [CServiceBase, logfile, otherReports, published, DWORD_SIZE],
      by intro _; simp [CServiceBase, logfile, DWORD_SIZE],
      by simp [CServiceBase, logfile, published],
      by simp [CServiceBase, logfile, published],
      by simp [CServiceBase, logfile, published]⟩

theorem CounterInv_report {w : Service} (hw : CounterInv w)
    (s : ServiceState) (e h : Nat) : CounterInv (SetServiceStatus w s e h) := by
  by_cases hs : s = SERVICE_RUNNING ∨ s = SERVICE_STOPPED
  · refine ⟨?_, ?_, ?_, ?_, ?_⟩
    · rw [SetServiceStatus_counter_final w s e h hs, hw.counter,
        otherReports_SetServiceStatus_final w s e h hs]
    · intro hn
      exact absurd hs hn
    · intro st hst
      rw [published_SetServiceStatus, List.getLast?_concat] at hst
      exact (Option.mem_some_iff.mp hst).symm
    · rw [published_SetServiceStatus]
      refine List.Chain'.append hw.steps (List.chain'_singleton _) ?_
      intro x _ y hy hx hyn
      simp only [List.head?_cons, Option.mem_def, Option.some.injEq] at hy
      subst hy
      exact absurd hs hyn
    · intro st hst hfin
      rw [published_SetServiceStatus, List.mem_append, List.mem_singleton] at hst
      rcases hst with hst | rfl
      · exact hw.zero st hst hfin
      · exact SetServiceStatus_checkPoint_final w s e h hs
  · have hcp := SetServiceStatus_checkPoint_other w s e h hs
    have hct := SetServiceStatus_counter_other w s e h hs
    refine ⟨?_, ?_, ?_, ?_, ?_⟩
    · rw [hct, hw.counter, otherReports_SetServiceStatus_other w s e h hs]
      simp only [DWORD_SIZE]
      omega
    · intro _
      rw [hct, hcp]
    · intro st hst
      rw [published_SetServiceStatus, List.getLast?_concat] at hst
      exact (Option.mem_some_iff.mp hst).symm
    · rw [published_SetServiceStatus]
      refine List.Chain'.append hw.steps (List.chain'_singleton _) ?_
      intro x hx y hy hxn _
      simp only [List.head?_cons, Option.mem_def, Option.some.injEq] at hy
      subst hy
      have hxs := hw.last x hx
      subst hxs
      have hnext := hw.next hxn
      rw [hcp, hnext]
      refine ⟨rfl, fun hlt => ?_⟩
      rw [Nat.mod_eq_of_lt hlt]
      exact Nat.lt_succ_self _
    · intro st hst hfin
      rw [published_SetServiceStatus, List.mem_append, List.mem_singleton] at hst
      rcases hst with hst | rfl
      · exact hw.zero st hst hfin
      · exact absurd hfin hs

/-- The invariant of the check-point counter holds in every reachable state. -/
theorem CounterInv_of_reachable (w : Service) (hw : Reachable w) : CounterInv w :=
  reachable_keeps CounterInv CounterInv_init
    (fun _ l t h => CounterInv_transfer h rfl rfl (published_logfile _ l t))
    (fun _ s e h hw => CounterInv_report hw s e h)
    (fun w a b c h => CounterInv_transfer h (WriteEventLogEntry_status w a b c).2
      (WriteEventLogEntry_status w a b c).1 (published_WriteEventLogEntry w a b c))
    (fun w h => CounterInv_transfer h rfl rfl (published_SetEvent w))
    w hw

theorem reportMany_reachable (w : Service) (hw : Reachable w) (n : Nat) :
    Reachable (reportMany w n) := by
  induction n with
  | zero => exact hw
  | succ n ih =>
    exact Reachable.report (reportMany w n)
      { dwCurrentState := SERVICE_START_PENDING
        dwWin32ExitCode := NO_ERROR
        dwWaitHint := defaultWaitHint } ih

theorem reportMany_counter (w : Service) (n : Nat) (hw : w.dwCheckPoint < DWORD_SIZE) :
    (reportMany w n).dwCheckPoint = (w.dwCheckPoint + n) % DWORD_SIZE := by
  induction n with
  | zero => exact (Nat.mod_eq_of_lt hw).symm
  | succ n ih =>
    have hs : ¬ (SERVICE_START_PENDING = SERVICE_RUNNING ∨
        SERVICE_START_PENDING = SERVICE_STOPPED) := by decide
    rw [reportMany, SetServiceStatus_counter_other _ _ _ _ hs, ih]
    simp only [DWORD_SIZE]
    omega

/-- The largest counter value is reached from a fresh service, after
`2^32 - 2` reports of a state other than Running and Stopped. -/
theorem counter_max_reachable :
    Reachable (reportMany fresh 4294967294) ∧
      (reportMany fresh 4294967294).dwCheckPoint = 4294967295 := by
  refine ⟨reportMany_reachable fresh (Reachable.init _ _ _ _ _ _) _, ?_⟩
  rw [reportMany_counter fresh 4294967294 (by decide)]
  decide

/-- C9 as stated fails: with the counter at `2^32 - 1`, two consecutive reports
of StartPending carry the check-points 4294967295 and 0, so the second is not
greater than the first. -/
theorem C9_counterexample :
    (SetServiceStatus counterMax SERVICE_START_PENDING 0 0).m_status.dwCheckPoint = 4294967295 ∧
      (SetServiceStatus (SetServiceStatus counterMax SERVICE_START_PENDING 0 0)
        SERVICE_START_PENDING 0 0).m_status.dwCheckPoint = 0 ∧
      ¬ ((SetServiceStatus counterMax SERVICE_START_PENDING 0 0).m_status.dwCheckPoint <
        (SetServiceStatus (SetServiceStatus counterMax SERVICE_START_PENDING 0 0)
          SERVICE_START_PENDING 0 0).m_status.dwCheckPoint) := by
  decide

/-- C9, amended: for every status and counter value, a report of Running or
Stopped stores check-point 0; of two consecutive reports of states outside
Running and Stopped, the second stores the check-point of the first plus one
modulo `2^32`, which is strictly greater unless the first is `2^32 - 1`; and in
every reachable state the whole sequence of records handed to the host has
these two properties (re-reports made by callbacks included). -/
theorem C9_checkpoint_reset_and_step (w : Service) (s1 s2 : ServiceState)
    (e1 h1 e2 h2 : Nat) :
    ((s1 = SERVICE_RUNNING ∨ s1 = SERVICE_STOPPED) →
        (SetServiceStatus w s1 e1 h1).m_status.dwCheckPoint = 0) ∧
      CheckPointStep (SetServiceStatus w s1 e1 h1).m_status
        (SetServiceStatus (SetServiceStatus w s1 e1 h1) s2 e2 h2).m_status ∧
      (Reachable w →
        (∀ st ∈ published w.trace,
          (st.dwCurrentState = SERVICE_RUNNING ∨ st.dwCurrentState = SERVICE_STOPPED) →
            st.dwCheckPoint = 0) ∧
        List.Chain' CheckPointStep (published w.trace)) := by
  refine ⟨SetServiceStatus_checkPoint_final w s1 e1 h1, ?_, ?_⟩
  · intro hn1 hn2
    simp only [SetServiceStatus_state] at hn1 hn2
    rw [SetServiceStatus_checkPoint_other _ s2 e2 h2 hn2,
      SetServiceStatus_checkPoint_other w s1 e1 h1 hn1,
      SetServiceStatus_counter_other w s1 e1 h1 hn1]
    refine ⟨rfl, fun hlt => ?_⟩
    rw [Nat.mod_eq_of_lt hlt]
    exact Nat.lt_succ_self _
  · intro hw
    exact ⟨(CounterInv_of_reachable w hw).zero, (CounterInv_of_reachable w hw).steps⟩

/-- C9 (amended) at concrete inputs: two consecutive reports of StartPending on
the fresh service carry the check-points 1 and 2. -/
theorem C9_witness :
    (SetServiceStatus fresh SERVICE_START_PENDING 0 0).m_status.dwCheckPoint + 1 < DWORD_SIZE ∧
      (SetServiceStatus fresh SERVICE_START_PENDING 0 0).m_status.dwCheckPoint <
        (SetServiceStatus (SetServiceStatus fresh SERVICE_START_PENDING 0 0)
          SERVICE_START_PENDING 0 3000).m_status.dwCheckPoint :=
  ⟨by decide,
    ((C9_checkpoint_reset_and_step fresh SERVICE_START_PENDING SERVICE_START_PENDING
      0 0 0 3000).2.1 (by decide) (by decide)).2 (by decide)⟩

/-- C10 as stated fails: after a successful Start the record holds check-point
0, and the next pending report (StopPending) stores 2, the counter value, not
previous + 1 = 1. -/
theorem C10_counterexample :
    running.m_status.dwCurrentState = SERVICE_RUNNING ∧
      running.m_status.dwCheckPoint = 0 ∧
      (SetServiceStatus running SERVICE_STOP_PENDING 0 0).m_status.dwCheckPoint = 2 := by
  decide

/-! ## Two runs of a transition from states that agree on the service -/

theorem runCallback_rel (R : Service → Service → Prop)
    (hset : ∀ a b s e h, R a b → R (SetServiceStatus a s e h) (SetServiceStatus b s e h))
    (a b : Service) (cb : Callback) (hab : R a b) :
    R (runCallback a cb).1 (runCallback b cb).1 := by
  rw [runCallback_fst, runCallback_fst]
  generalize cb.reports = rs
  induction rs generalizing a b with
  | nil => exact hab
  | cons r rs ih => exact ih _ _ (hset a b _ _ _ hab)

/-- A relation between two states that the primitive operations keep, and that
forces the same current state, is kept by every transition method. -/
theorem transition_rel (R : Service → Service → Prop)
    (hstate : ∀ a b, R a b → a.m_status.dwCurrentState = b.m_status.dwCurrentState)
    (hlog : ∀ a b l t u, R a b → R (logfile a l t) (logfile b l u))
    (hset : ∀ a b s e h, R a b → R (SetServiceStatus a s e h) (SetServiceStatus b s e h))
    (hev : ∀ a b n m t n2 m2 t2, R a b →
      R (WriteEventLogEntry a n m t) (WriteEventLogEntry b n2 m2 t2))
    (hse : ∀ a b, R a b → R (SetEvent a) (SetEvent b))
    (t : Transition) (a b : Service) (hab : R a b) : R (t.run a).1 (t.run b).1 := by
  have hcb : ∀ a b cb, R a b → R (runCallback a cb).1 (runCallback b cb).1 :=
    fun a b cb h => runCallback_rel R hset a b cb h
  have herr : ∀ a b n e n2 e2, R a b → R (WriteErrorLogEntry a n e) (WriteErrorLogEntry b n2 e2) :=
    fun a b _ _ _ _ h => hev _ _ _ _ _ _ _ _ h
  cases t with
  | Start pszArgv OnStart =>
    have h1 := hcb _ _ (OnStart pszArgv) (hset _ _ SERVICE_START_PENDING NO_ERROR defaultWaitHint
      (hlog a b (some LogLevel.Info) ("Start Service " ++ a.m_name)
        ("Start Service " ++ b.m_name) hab))
    simp only [Transition.run, Start]
    rcases ho : (OnStart pszArgv).outcome with _ | f
    · simp only [runCallback, ho]
      exact hset _ _ _ _ _ h1
    · cases f <;> simp only [runCallback, ho] <;>
        first
        | exact hset _ _ _ _ _ (hlog _ _ _ _ _ (herr _ _ _ _ _ _ h1))
        | exact hset _ _ _ _ _ (hlog _ _ _ _ _ (hev _ _ _ _ _ _ _ _ h1))
  | Stop OnStop =>
    have hst := hstate a b hab
    have h1 := hcb _ _ OnStop (hset _ _ SERVICE_STOP_PENDING NO_ERROR defaultWaitHint
      (hlog a b (some LogLevel.Info) ("Start Service " ++ a.m_name)
        ("Start Service " ++ b.m_name) hab))
    simp only [Transition.run, Stop]
    rw [hst]
    rcases ho : OnStop.outcome with _ | f
    · simp only [runCallback, ho]
      exact hse _ _ (hset _ _ _ _ _ h1)
    · cases f <;> simp only [runCallback, ho] <;>
        first
        | exact hset _ _ _ _ _ (hlog _ _ _ _ _ (herr _ _ _ _ _ _ h1))
        | exact hset _ _ _ _ _ (hlog _ _ _ _ _ (hev _ _ _ _ _ _ _ _ h1))
        | exact h1
  | Pause OnPause =>
    have h1 := hcb _ _ OnPause (hset _ _ SERVICE_PAUSE_PENDING NO_ERROR defaultWaitHint
      (hlog a b (some LogLevel.Info) ("Pause Service " ++ a.m_name)
        ("Pause Service " ++ b.m_name) hab))
    simp only [Transition.run, Pause]
    rcases ho : OnPause.outcome with _ | f
    · simp only [runCallback, ho]
      exact hset _ _ _ _ _ h1
    · cases f <;> simp only [runCallback, ho] <;>
        first
        | exact hset _ _ _ _ _ (hlog _ _ _ _ _ (herr _ _ _ _ _ _ h1))
        | exact hset _ _ _ _ _ (hlog _ _ _ _ _ (hev _ _ _ _ _ _ _ _ h1))
        | exact hlog _ _ _ _ _ (hev _ _ _ _ _ _ _ _ h1)
  | Continue OnContinue =>
    have h1 := hcb _ _ OnContinue (hset _ _ SERVICE_CONTINUE_PENDING NO_ERROR defaultWaitHint
      (hlog a b (some LogLevel.Info) ("Continue Service " ++ a.m_name)
        ("Continue Service " ++ b.m_name) hab))
    simp only [Transition.run, Continue]
    rcases ho : OnContinue.outcome with _ | f
    · simp only [runCallback, ho]
      exact hset _ _ _ _ _ h1
    · cases f <;> simp only [runCallback, ho] <;>
        first
        | exact hset _ _ _ _ _ (hlog _ _ _ _ _ (herr _ _ _ _ _ _ h1))
        | exact hset _ _ _ _ _ (hlog _ _ _ _ _ (hev _ _ _ _ _ _ _ _ h1))
  | Shutdown OnShutdown =>
    have h1 := hcb _ _ OnShutdown (hlog a b (some LogLevel.Info) ("Shutdown Service " ++ a.m_name)
      ("Shutdown Service " ++ b.m_name) hab)
    simp only [Transition.run, Shutdown]
    rcases ho : OnShutdown.outcome with _ | f
    · simp only [runCallback, ho]
      exact hset _ _ _ _ _ h1
    · cases f <;> simp only [runCallback, ho] <;>
        first
        | exact hlog _ _ _ _ _ (herr _ _ _ _ _ _ h1)
        | exact hlog _ _ _ _ _ (hev _ _ _ _ _ _ _ _ h1)

/-- Whether an exception leaves a transition method depends on the callback
only, not on the state in which the method is called. -/
theorem transition_thrown_eq (t : Transition) (a b : Service) : (t.run a).2 = (t.run b).2 := by
  cases t with
  | Start pszArgv OnStart =>
    rcases ho : (OnStart pszArgv).outcome with _ | f
    · simp [Transition.run, Start, runCallback, ho]
    · cases f <;> simp [Transition.run, Start, runCallback, ho]
  | Stop OnStop =>
    rcases ho : OnStop.outcome with _ | f
    · simp [Transition.run, Stop, runCallback, ho]
    · cases f <;> simp [Transition.run, Stop, runCallback, ho]
  | Pause OnPause =>
    rcases ho : OnPause.outcome with _ | f
    · simp [Transition.run, Pause, runCallback, ho]
    · cases f <;> simp [Transition.run, Pause, runCallback, ho]
  | Continue OnContinue =>
    rcases ho : OnContinue.outcome with _ | f
    · simp [Transition.run, Continue, runCallback, ho]
    · cases f <;> simp [Transition.run, Continue, runCallback, ho]
  | Shutdown OnShutdown =>
    rcases ho : OnShutdown.outcome with _ | f
    · simp [Transition.run, Shutdown, runCallback, ho]
    · cases f <;> simp [Transition.run, Shutdown, runCallback, ho]

theorem SameService_logfile (p q : List SERVICE_STATUS) (a b : Service)
    (l : Option LogLevel) (t u : String) (h : SameService p q a b) :
    SameService p q (logfile a l t) (logfile b l u) := by
  obtain ⟨h1, h2, h3, h4, h5, xs, hx, hy⟩ := h
  exact ⟨h1, h2, h3, h4, h5, xs, by rw [published_logfile, hx], by rw [published_logfile, hy]⟩

theorem SameService_WriteEventLogEntry (p q : List SERVICE_STATUS) (a b : Service)
    (n m : String) (t : EventType) (n2 m2 : String) (t2 : EventType)
    (h : SameService p q a b) :
    SameService p q (WriteEventLogEntry a n m t) (WriteEventLogEntry b n2 m2 t2) := by
  obtain ⟨h1, h2, h3, h4, h5, xs, hx, hy⟩ := h
  refine ⟨?_, ?_, ?_, ?_, ?_, xs, ?_, ?_⟩
  · unfold WriteEventLogEntry
    cases a.host.RegisterEventSource a.nRegisterEventSource <;>
      cases b.host.RegisterEventSource b.nRegisterEventSource <;> exact h1
  · unfold WriteEventLogEntry
    cases a.host.RegisterEventSource a.nRegisterEventSource <;>
      cases b.host.RegisterEventSource b.nRegisterEventSource <;> exact h2
  · rw [WriteEventLogEntry_m_status, WriteEventLogEntry_m_status]
    exact h3
  · rw [WriteEventLogEntry_stopEvent, WriteEventLogEntry_stopEvent]
    exact h4
  · rw [(WriteEventLogEntry_status a n m t).2, (WriteEventLogEntry_status b n2 m2 t2).2]
    exact h5
  · rw [published_WriteEventLogEntry, hx]
  · rw [published_WriteEventLogEntry, hy]

theorem SameService_SetServiceStatus (p q : List SERVICE_STATUS) (a b : Service)
    (s : ServiceState) (e h : Nat) (hab : SameService p q a b) :
    SameService p q (SetServiceStatus a s e h) (SetServiceStatus b s e h) := by
  obtain ⟨h1, h2, h3, h4, h5, xs, hx, hy⟩ := hab
  have hm : (SetServiceStatus a s e h).m_status = (SetServiceStatus b s e h).m_status := by
    simp only [SetServiceStatus, h3, h5]
  refine ⟨h1, h2, hm, h4, ?_, xs ++ [(SetServiceStatus b s e h).m_status], ?_, ?_⟩
  · simp only [SetServiceStatus, h5]
  · rw [published_SetServiceStatus, hx, hm, List.append_assoc]
  · rw [published_SetServiceStatus, hy, List.append_assoc]

theorem SameService_SetEvent (p q : List SERVICE_STATUS) (a b : Service)
    (h : SameService p q a b) : SameService p q (SetEvent a) (SetEvent b) := by
  obtain ⟨h1, h2, h3, h4, h5, xs, hx, hy⟩ := h
  refine ⟨h1, h2, h3, ?_, h5, xs, ?_, ?_⟩
  · simp only [SetEvent, h4]
  · rw [published_SetEvent, hx]
  · rw [published_SetEvent, hy]

/-- Two runs of a transition from states that agree on the service end in
states that agree on the service, with the same reports issued and the same
exception. -/
theorem transition_SameService (p q : List SERVICE_STATUS) (t : Transition) (a b : Service)
    (h : SameService p q a b) :
    SameService p q (t.run a).1 (t.run b).1 ∧ (t.run a).2 = (t.run b).2 :=
  ⟨transition_rel (SameService p q) (fun _ _ hab => by rw [hab.2.2.1])
    (SameService_logfile p q) (SameService_SetServiceStatus p q)
    (SameService_WriteEventLogEntry p q) (SameService_SetEvent p q) t a b h,
   transition_thrown_eq t a b⟩

/-- The first statement of the handler leaves the service as it was. -/
theorem handlerEntry_SameService (w : Service) :
    SameService (published w.trace) (published w.trace) (handlerEntry w) w :=
  ⟨by simp [handlerEntry, WriteEventLogEntry]; split <;> rfl,
    by simp [handlerEntry, WriteEventLogEntry]; split <;> rfl,
    WriteEventLogEntry_m_status _ _ _ _, WriteEventLogEntry_stopEvent _ _ _ _,
    (WriteEventLogEntry_status _ _ _ _).2, [],
    by simp [handlerEntry, published_WriteEventLogEntry], by simp⟩

/-! ## Claims on the status reporter, the control handler and the entry point -/

/-- C11 as stated fails: on a host that rejects every publication, the report
of Running is rejected and the reporter still returns normally to its caller. -/
theorem C11_counterexample :
    lastPublicationAccepted (report freshRejected SERVICE_RUNNING 0 0).1 = false ∧
      (report freshRejected SERVICE_RUNNING 0 0).2 = none := by
  decide

/-- C11, amended: for every state, exit code and wait hint, the status reporter
stores the record, hands it to the publication primitive of the host and
returns normally whether the host accepts or rejects the record: the answer of
the host is dropped and no publication error reaches the caller. -/
theorem C11_report_ignores_rejection (w : Service) (s : ServiceState) (e h : Nat) :
    (report w s e h).2 = none ∧
      (report w s e h).1.m_status.dwCurrentState = s ∧
      (report w s e h).1.m_status.dwWin32ExitCode = e ∧
      (report w s e h).1.m_status.dwWaitHint = h ∧
      published (report w s e h).1.trace = published w.trace ++ [(report w s e h).1.m_status] ∧
      lastPublicationAccepted (report w s e h).1 =
        w.host.SetServiceStatus w.m_statusHandle (report w s e h).1.m_status := by
  refine ⟨rfl, rfl, rfl, rfl, published_SetServiceStatus w s e h, ?_⟩
  simp [report, lastPublicationAccepted, SetServiceStatus]

/-- C12 as stated fails: the handler first writes an event-log entry of its
own, so delivering the Stop code is not exactly a call of Stop, which on a
successful `OnStop` writes no event-log entry. -/
theorem C12_counterexample :
    eventLog (ServiceCtrlHandler running ControlCode.SERVICE_CONTROL_STOP cbOk).1.trace =
        [("SystemD-Service-Exec", "Service ctl ", EventType.EVENTLOG_ERROR_TYPE)] ∧
      eventLog (Stop running cbOk).1.trace = [] := by
  decide

/-- C12, amended: for every status and every control code, the handler first
writes the event-log entry "Service ctl " (kept by the host when it grants the
event source) and then, for the codes Stop, Pause, Continue and Shutdown, does
exactly what the matching transition method does in that state; compared with
a direct call of the method it leaves the same name, status handle, status
record, stop event and check-point counter, issues the same status reports and
throws the same exception. For Interrogate and every other code it does nothing
more: no callback is invoked (the result does not depend on it), no status
report is issued, nothing is thrown, and the status record, the check-point
counter and the stop event are unchanged. -/
theorem C12_handler_routes (w : Service) (dwCtrl : ControlCode) (cb : Callback) :
    (dwCtrl = ControlCode.SERVICE_CONTROL_STOP →
        ServiceCtrlHandler w dwCtrl cb = Stop (handlerEntry w) cb ∧
        SameService (published w.trace) (published w.trace)
          (ServiceCtrlHandler w dwCtrl cb).1 (Stop w cb).1 ∧
        (ServiceCtrlHandler w dwCtrl cb).2 = (Stop w cb).2) ∧
      (dwCtrl = ControlCode.SERVICE_CONTROL_PAUSE →
        ServiceCtrlHandler w dwCtrl cb = Pause (handlerEntry w) cb ∧
        SameService (published w.trace) (published w.trace)
          (ServiceCtrlHandler w dwCtrl cb).1 (Pause w cb).1 ∧
        (ServiceCtrlHandler w dwCtrl cb).2 = (Pause w cb).2) ∧
      (dwCtrl = ControlCode.SERVICE_CONTROL_CONTINUE →
        ServiceCtrlHandler w dwCtrl cb = Continue (handlerEntry w) cb ∧
        SameService (published w.trace) (published w.trace)
          (ServiceCtrlHandler w dwCtrl cb).1 (Continue w cb).1 ∧
        (ServiceCtrlHandler w dwCtrl cb).2 = (Continue w cb).2) ∧
      (dwCtrl = ControlCode.SERVICE_CONTROL_SHUTDOWN →
        ServiceCtrlHandler w dwCtrl cb = Shutdown (handlerEntry w) cb ∧
        SameService (published w.trace) (published w.trace)
          (ServiceCtrlHandler w dwCtrl cb).1 (Shutdown w cb).1 ∧
        (ServiceCtrlHandler w dwCtrl cb).2 = (Shutdown w cb).2) ∧
      ((dwCtrl = ControlCode.SERVICE_CONTROL_INTERROGATE ∨ ∃ n, dwCtrl = ControlCode.other n) →
        (∀ cb2, ServiceCtrlHandler w dwCtrl cb2 = ServiceCtrlHandler w dwCtrl cb) ∧
        (ServiceCtrlHandler w dwCtrl cb).2 = none ∧
        (ServiceCtrlHandler w dwCtrl cb).1.m_status = w.m_status ∧
        (ServiceCtrlHandler w dwCtrl cb).1.dwCheckPoint = w.dwCheckPoint ∧
        (ServiceCtrlHandler w dwCtrl cb).1.hSvcStopEvent = w.hSvcStopEvent ∧
        published (ServiceCtrlHandler w dwCtrl cb).1.trace = published w.trace) := by
  have hsim := handlerEntry_SameService w
  refine ⟨?_, ?_, ?_, ?_, ?_⟩
  · rintro rfl
    exact ⟨rfl, transition_SameService _ _ (Transition.Stop cb) _ _ hsim⟩
  · rintro rfl
    exact ⟨rfl, transition_SameService _ _ (Transition.Pause cb) _ _ hsim⟩
  · rintro rfl
    exact ⟨rfl, transition_SameService _ _ (Transition.Continue cb) _ _ hsim⟩
  · rintro rfl
    exact ⟨rfl, transition_SameService _ _ (Transition.Shutdown cb) _ _ hsim⟩
  · rintro (rfl | ⟨n, rfl⟩) <;>
      exact ⟨fun _ => rfl, rfl, WriteEventLogEntry_m_status _ _ _ _,
        (WriteEventLogEntry_status _ _ _ _).2, WriteEventLogEntry_stopEvent _ _ _ _,
        published_WriteEventLogEntry _ _ _ _⟩

/-- C12 (amended) at a concrete input: the user-defined code 200 delivered to
the running service leaves its status record as it was and throws nothing. -/
theorem C12_witness :
    (ControlCode.other 200 = ControlCode.SERVICE_CONTROL_INTERROGATE ∨
        ∃ n, ControlCode.other 200 = ControlCode.other n) ∧
      (ServiceCtrlHandler running (ControlCode.other 200) cbOk).2 = none ∧
      (ServiceCtrlHandler running (ControlCode.other 200) cbOk).1.m_status = running.m_status :=
  ⟨Or.inr ⟨200, rfl⟩,
    ((C12_handler_routes running (ControlCode.other 200) cbOk).2.2.2.2
      (Or.inr ⟨200, rfl⟩)).2.1,
    ((C12_handler_routes running (ControlCode.other 200) cbOk).2.2.2.2
      (Or.inr ⟨200, rfl⟩)).2.2.1⟩

@[simp] theorem logfile_checkPoint (w : Service) (l : Option LogLevel) (t : String) :
    (logfile w l t).dwCheckPoint = w.dwCheckPoint := rfl

@[simp] theorem WriteEventLogEntry_checkPoint (w : Service) (n m : String) (t : EventType) :
    (WriteEventLogEntry w n m t).dwCheckPoint = w.dwCheckPoint :=
  (WriteEventLogEntry_status w n m t).2

@[simp] theorem WriteErrorLogEntry_checkPoint (w : Service) (n : String) (e : Nat) :
    (WriteErrorLogEntry w n e).dwCheckPoint = w.dwCheckPoint := by
  simp [WriteErrorLogEntry]

theorem published_WriteErrorLogEntry (w : Service) (n : String) (e : Nat) :
    published (WriteErrorLogEntry w n e).trace = published w.trace := by
  simp [WriteErrorLogEntry, published_WriteEventLogEntry]

theorem transition_controlsAccepted (t : Transition) (w : Service) :
    (t.run w).1.m_status.dwControlsAccepted = w.m_status.dwControlsAccepted :=
  transition_keeps (fun x => x.m_status.dwControlsAccepted = w.m_status.dwControlsAccepted)
    (fun _ _ _ h => h) (fun _ _ _ _ h => h)
    (fun x a b c h =>
      (congrArg SERVICE_STATUS.dwControlsAccepted (WriteEventLogEntry_m_status x a b c)).trans h)
    (fun _ h => h) t w rfl

/-- C13 as stated fails: a service constructed without the pause/continue
capability and started is Running; the Pause code with a successful `OnPause`
moves it to Paused. -/
theorem C13_counterexample :
    runningNoPause.m_status.dwControlsAccepted.SERVICE_ACCEPT_PAUSE_CONTINUE = false ∧
      runningNoPause.m_status.dwCurrentState = SERVICE_RUNNING ∧
      (ServiceCtrlHandler runningNoPause ControlCode.SERVICE_CONTROL_PAUSE cbOk).1.m_status.dwCurrentState
        = SERVICE_PAUSED := by
  decide

/-- C13, amended: for every service whose pause/continue capability is off and
every `OnPause` outcome, the Pause code and a direct call of Pause complete
without an exception and leave the same status record; the capability is not
consulted (and stays off): the state is Paused after a successful `OnPause`
and Running after a typed or described failure, whatever it was before. -/
theorem C13_pause_ignores_capability (w : Service) (cb : Callback)
    (hflag : w.m_status.dwControlsAccepted.SERVICE_ACCEPT_PAUSE_CONTINUE = false) :
    (Pause w cb).2 = none ∧
      (ServiceCtrlHandler w ControlCode.SERVICE_CONTROL_PAUSE cb).2 = none ∧
      (ServiceCtrlHandler w ControlCode.SERVICE_CONTROL_PAUSE cb).1.m_status
        = (Pause w cb).1.m_status ∧
      (Pause w cb).1.m_status.dwControlsAccepted.SERVICE_ACCEPT_PAUSE_CONTINUE = false ∧
      (cb.outcome = none → (Pause w cb).1.m_status.dwCurrentState = SERVICE_PAUSED) ∧
      (∀ f, cb.outcome = some f → f ≠ Failure.unknown →
        (Pause w cb).1.m_status.dwCurrentState = SERVICE_RUNNING) := by
  have hret : (Pause w cb).2 = none :=
    transition_returns_normally (Transition.Pause cb) w (fun _ h => by cases h)
  have hsim := transition_SameService _ _ (Transition.Pause cb) _ _ (handlerEntry_SameService w)
  refine ⟨hret, hsim.2.trans hret, hsim.1.2.2.1, ?_, ?_, ?_⟩
  · have h := transition_controlsAccepted (Transition.Pause cb) w
    simp only [Transition.run] at h
    rw [h]
    exact hflag
  · intro ho
    exact (transition_success (Transition.Pause cb) w ho).2
  · intro f ho hf
    exact (Pause_caught_failure w cb f ho hf).2.1

/-- C13 (amended) at a concrete input: the service constructed without the
pause/continue capability, with an `OnPause` that throws the code 5. -/
theorem C13_witness :
    runningNoPause.m_status.dwControlsAccepted.SERVICE_ACCEPT_PAUSE_CONTINUE = false ∧
      (Pause runningNoPause (cbFail (Failure.typed 5))).2 = none ∧
      (Pause runningNoPause (cbFail (Failure.typed 5))).1.m_status.dwCurrentState
        = SERVICE_RUNNING :=
  ⟨by decide,
    (C13_pause_ignores_capability runningNoPause (cbFail (Failure.typed 5)) (by decide)).1,
    (C13_pause_ignores_capability runningNoPause (cbFail (Failure.typed 5))
      (by decide)).2.2.2.2.2 (Failure.typed 5) rfl (by decide)⟩

theorem published_runCallback_length (w : Service) (cb : Callback) :
    (published (runCallback w cb).1.trace).length =
      (published w.trace).length + cb.reports.length := by
  rw [runCallback_fst]
  generalize cb.reports = rs
  induction rs generalizing w with
  | nil => rfl
  | cons r rs ih =>
    rw [List.foldl_cons, ih, published_SetServiceStatus]
    simp only [List.length_append, List.length_cons, List.length_nil]
    omega

/-- Shutdown after a failure of its callback: the method returns normally and
adds no report of its own; the service is as the callback left it. -/
theorem Shutdown_failure (w : Service) (cb : Callback) (f : Failure)
    (h : cb.outcome = some f) :
    (Shutdown w cb).2 = none ∧
      (Shutdown w cb).1.m_status = ((Transition.Shutdown cb).afterCallback w).m_status ∧
      (Shutdown w cb).1.dwCheckPoint = ((Transition.Shutdown cb).afterCallback w).dwCheckPoint ∧
      (Shutdown w cb).1.hSvcStopEvent = ((Transition.Shutdown cb).afterCallback w).hSvcStopEvent ∧
      published (Shutdown w cb).1.trace
        = published ((Transition.Shutdown cb).afterCallback w).trace := by
  simp only [Transition.afterCallback, Transition.before, Transition.callback, Shutdown]
  rw [runCallback_eq, h]
  cases f <;>
    simp only [logfile_status, logfile_checkPoint, logfile_stopEvent, published_logfile,
      WriteErrorLogEntry_m_status, WriteErrorLogEntry_checkPoint, WriteErrorLogEntry_stopEvent,
      published_WriteErrorLogEntry, WriteEventLogEntry_m_status, WriteEventLogEntry_checkPoint,
      WriteEventLogEntry_stopEvent, published_WriteEventLogEntry, and_self]

/-- C14 as stated fails: `OnShutdown` re-reports StopPending and then throws
the code 5; Shutdown reports nothing afterwards, so the status record is left
at StopPending with check-point 2, not as it was (Running, check-point 0). -/
theorem C14_counterexample :
    running.m_status.dwCurrentState = SERVICE_RUNNING ∧
      (Shutdown running (cbReportThenFail (Failure.typed 5))).1.m_status.dwCurrentState
        = SERVICE_STOP_PENDING ∧
      (Shutdown running (cbReportThenFail (Failure.typed 5))).1.m_status.dwCheckPoint = 2 := by
  decide

/-- C14, amended: for every initial status and every kind of `OnShutdown`
failure, Shutdown returns normally and issues no status report of its own: the
published reports are those before the call followed by the re-reports of the
callback, and the status record, the check-point counter and the stop event are
as the callback left them; when the callback made no re-report they are exactly
as before the call. -/
theorem C14_shutdown_failure_reports_nothing (w : Service) (cb : Callback) (f : Failure)
    (h : cb.outcome = some f) :
    (Shutdown w cb).2 = none ∧
      (Shutdown w cb).1.m_status = ((Transition.Shutdown cb).afterCallback w).m_status ∧
      (Shutdown w cb).1.dwCheckPoint = ((Transition.Shutdown cb).afterCallback w).dwCheckPoint ∧
      (published (Shutdown w cb).1.trace).length
        = (published w.trace).length + cb.reports.length ∧
      (cb.reports = [] →
        (Shutdown w cb).1.m_status = w.m_status ∧
        (Shutdown w cb).1.dwCheckPoint = w.dwCheckPoint ∧
        (Shutdown w cb).1.hSvcStopEvent = w.hSvcStopEvent ∧
        published (Shutdown w cb).1.trace = published w.trace) := by
  have hS := Shutdown_failure w cb f h
  refine ⟨hS.1, hS.2.1, hS.2.2.1, ?_, ?_⟩
  · rw [hS.2.2.2.2]
    simp only [Transition.afterCallback, Transition.before, Transition.callback]
    rw [published_runCallback_length, published_logfile]
  · intro hr
    have hA : (Transition.Shutdown cb).afterCallback w
        = logfile w (some LogLevel.Info) ("Shutdown Service " ++ w.m_name) := by
      simp only [Transition.afterCallback, Transition.before, Transition.callback]
      exact runCallback_no_reports _ cb hr
    rw [hS.2.1, hS.2.2.1, hS.2.2.2.1, hS.2.2.2.2, hA]
    exact ⟨rfl, rfl, rfl, published_logfile _ _ _⟩

/-- C14 (amended) at a concrete input: an unclassified failure of `OnShutdown`
without re-report on the running service. -/
theorem C14_witness :
    (cbFail Failure.unknown).outcome = some Failure.unknown ∧
      (cbFail Failure.unknown).reports = [] ∧
      (Shutdown running (cbFail Failure.unknown)).1.m_status = running.m_status :=
  ⟨rfl, rfl,
    ((C14_shutdown_failure_reports_nothing running (cbFail Failure.unknown) Failure.unknown
      rfl).2.2.2.2 rfl).1⟩

theorem runControls_cons_of_none (w : Service) (c : ControlCode × Callback)
    (cs : List (ControlCode × Callback)) (h : (ServiceCtrlHandler w c.1 c.2).2 = none) :
    runControls w (c :: cs) = runControls (ServiceCtrlHandler w c.1 c.2).1 cs := by
  rcases hr : ServiceCtrlHandler w c.1 c.2 with ⟨w1, o⟩
  rw [hr] at h
  simp only at h
  subst h
  simp [runControls, hr]

/-- One delivery that keeps a stopped service stopped. -/
theorem handler_keeps_stopped (w : Service) (c : ControlCode × Callback)
    (hw : w.m_status.dwCurrentState = SERVICE_STOPPED) (hc : keepsStopped c) :
    (ServiceCtrlHandler w c.1 c.2).2 = none ∧
      (ServiceCtrlHandler w c.1 c.2).1.m_status.dwCurrentState = SERVICE_STOPPED := by
  obtain ⟨code, cb⟩ := c
  have hv : (handlerEntry w).m_status.dwCurrentState = SERVICE_STOPPED := by
    rw [handlerEntry, WriteEventLogEntry_m_status]
    exact hw
  cases code with
  | SERVICE_CONTROL_STOP =>
    have hne : cb.outcome ≠ some Failure.unknown := hc
    show (Stop (handlerEntry w) cb).2 = none ∧
      (Stop (handlerEntry w) cb).1.m_status.dwCurrentState = SERVICE_STOPPED
    rcases ho : cb.outcome with _ | f
    · exact transition_success (Transition.Stop cb) (handlerEntry w) ho
    · have hf : f ≠ Failure.unknown := fun hf => hne (by rw [ho, hf])
      have hS := Stop_caught_failure (handlerEntry w) cb f ho hf
      exact ⟨hS.1, hS.2.1.trans hv⟩
  | SERVICE_CONTROL_SHUTDOWN =>
    have hor : cb.outcome = none ∨ cb.reports = [] := hc
    show (Shutdown (handlerEntry w) cb).2 = none ∧
      (Shutdown (handlerEntry w) cb).1.m_status.dwCurrentState = SERVICE_STOPPED
    rcases ho : cb.outcome with _ | f
    · exact transition_success (Transition.Shutdown cb) (handlerEntry w) ho
    · have hr : cb.reports = [] := by
        rcases hor with h | h
        · rw [ho] at h
          cases h
        · exact h
      have hS := Shutdown_failure (handlerEntry w) cb f ho
      refine ⟨hS.1, ?_⟩
      rw [hS.2.1]
      simp only [Transition.afterCallback, Transition.before, Transition.callback]
      rw [runCallback_no_reports _ cb hr]
      exact hv
  | SERVICE_CONTROL_INTERROGATE => exact ⟨rfl, hv⟩
  | other n => exact ⟨rfl, hv⟩
  | SERVICE_CONTROL_PAUSE => exact absurd hc id
  | SERVICE_CONTROL_CONTINUE => exact absurd hc id

/-- C15 as stated fails: the handler does not look at the current state, so the
Pause code delivered to a stopped service with a successful `OnPause` moves it
to Paused, and the Continue code moves it to Running. -/
theorem C15_counterexample :
    stopped.m_status.dwCurrentState = SERVICE_STOPPED ∧
      (ServiceCtrlHandler stopped ControlCode.SERVICE_CONTROL_PAUSE cbOk).1.m_status.dwCurrentState
        = SERVICE_PAUSED ∧
      (ServiceCtrlHandler stopped ControlCode.SERVICE_CONTROL_CONTINUE cbOk).1.m_status.dwCurrentState
        = SERVICE_RUNNING := by
  decide

/-- C15, amended: for every status with `dwCurrentState` Stopped, every
sequence of Stop, Shutdown, Interrogate and other control codes delivered
through the handler runs to its end and leaves the state Stopped, when no
`OnStop` throws an unclassified object and every failing `OnShutdown` makes no
re-report. Pause and Continue are not refused in state Stopped: with a
successful callback they move the state to Paused and to Running. -/
theorem C15_stopped_stays_stopped (w : Service) (cs : List (ControlCode × Callback))
    (hw : w.m_status.dwCurrentState = SERVICE_STOPPED) (hcs : ∀ c ∈ cs, keepsStopped c) :
    ((runControls w cs).2 = none ∧
        (runControls w cs).1.m_status.dwCurrentState = SERVICE_STOPPED) ∧
      (∀ cb, cb.outcome = none →
        (ServiceCtrlHandler w ControlCode.SERVICE_CONTROL_PAUSE cb).1.m_status.dwCurrentState
          = SERVICE_PAUSED ∧
        (ServiceCtrlHandler w ControlCode.SERVICE_CONTROL_CONTINUE cb).1.m_status.dwCurrentState
          = SERVICE_RUNNING) := by
  refine ⟨?_, fun cb ho => ⟨?_, ?_⟩⟩
  · revert hw
    induction cs generalizing w with
    | nil => exact fun hw => ⟨rfl, hw⟩
    | cons c cs ih =>
      intro hw
      have hc := handler_keeps_stopped w c hw (hcs c (List.mem_cons_self c cs))
      rw [runControls_cons_of_none w c cs hc.1]
      exact ih _ (fun x hx => hcs x (List.mem_cons_of_mem c hx)) hc.2
  · exact (transition_success (Transition.Pause cb) (handlerEntry w) ho).2
  · exact (transition_success (Transition.Continue cb) (handlerEntry w) ho).2

/-- C15 (amended) at a concrete input: Stop (failing with code 5), the code 200
and Shutdown delivered to the stopped service. -/
theorem C15_witness :
    stopped.m_status.dwCurrentState = SERVICE_STOPPED ∧
      (runControls stopped
        [(ControlCode.SERVICE_CONTROL_STOP, cbFail (Failure.typed 5)),
         (ControlCode.other 200, cbOk),
         (ControlCode.SERVICE_CONTROL_SHUTDOWN, cbOk)]).1.m_status.dwCurrentState
        = SERVICE_STOPPED :=
  ⟨by decide,
    (C15_stopped_stays_stopped stopped
      [(ControlCode.SERVICE_CONTROL_STOP, cbFail (Failure.typed 5)),
       (ControlCode.other 200, cbOk),
       (ControlCode.SERVICE_CONTROL_SHUTDOWN, cbOk)]
      (by decide)
      (by
        intro c hc
        simp only [List.mem_cons, List.mem_singleton, List.not_mem_nil, or_false] at hc
        rcases hc with rfl | rfl | rfl
        · exact fun h => by cases h
        · exact trivial
        · exact Or.inl rfl)).1.2⟩

/-- C16 as stated fails: `OnStop` throws the code 5 on the running service,
whose stop event exists and is not signaled; Stop returns and the stop event is
still not signaled. -/
theorem C16_counterexample :
    (Stop running (cbFail (Failure.typed 5))).2 = none ∧
      (Stop running (cbFail (Failure.typed 5))).1.hSvcStopEvent = some false := by
  decide

/-- C16, amended: for every initial status, when `OnStop` succeeds Stop returns
with the stop event signaled if it exists (`SetEvent` on a `NULL` handle
signals nothing); when `OnStop` fails, in whatever way, the stop event is left
exactly as it was, so the wait of the dispatch loop is not released. -/
theorem C16_stop_signals_on_success_only (w : Service) (cb : Callback) :
    (cb.outcome = none →
        (Stop w cb).2 = none ∧
        (Stop w cb).1.hSvcStopEvent = w.hSvcStopEvent.map (fun _ => true)) ∧
      (∀ f, cb.outcome = some f → (Stop w cb).1.hSvcStopEvent = w.hSvcStopEvent) := by
  refine ⟨fun ho => ?_, fun f ho => ?_⟩
  · simp only [Stop]
    rw [runCallback_eq, ho]
    simp [SetEvent, runCallback_stopEvent]
  · simp only [Stop]
    rw [runCallback_eq, ho]
    cases f <;> simp [runCallback_stopEvent]

/-- C16 (amended) at a concrete input: a successful Stop of the running service
signals its stop event. -/
theorem C16_witness :
    cbOk.outcome = none ∧ (Stop running cbOk).1.hSvcStopEvent = some true :=
  ⟨rfl, ((C16_stop_signals_on_success_only running cbOk).1 rfl).2.trans (by decide)⟩

/-- A transition method other than Stop leaves the stop event as it was. -/
theorem transition_stopEvent (t : Transition) (w : Service)
    (h : ∀ cb, t ≠ Transition.Stop cb) : (t.run w).1.hSvcStopEvent = w.hSvcStopEvent := by
  cases t with
  | Start pszArgv OnStart =>
    simp only [Transition.run, Start]
    rcases ho : (OnStart pszArgv).outcome with _ | f
    · rw [runCallback_eq, ho]
      simp [runCallback_stopEvent]
    · rw [runCallback_eq, ho]
      cases f <;> simp [runCallback_stopEvent]
  | Stop OnStop => exact absurd rfl (h OnStop)
  | Pause OnPause =>
    simp only [Transition.run, Pause]
    rcases ho : OnPause.outcome with _ | f
    · rw [runCallback_eq, ho]
      simp [runCallback_stopEvent]
    · rw [runCallback_eq, ho]
      cases f <;> simp [runCallback_stopEvent]
  | Continue OnContinue =>
    simp only [Transition.run, Continue]
    rcases ho : OnContinue.outcome with _ | f
    · rw [runCallback_eq, ho]
      simp [runCallback_stopEvent]
    · rw [runCallback_eq, ho]
      cases f <;> simp [runCallback_stopEvent]
  | Shutdown OnShutdown =>
    simp only [Transition.run, Shutdown]
    rcases ho : OnShutdown.outcome with _ | f
    · rw [runCallback_eq, ho]
      simp [runCallback_stopEvent]
    · rw [runCallback_eq, ho]
      cases f <;> simp [runCallback_stopEvent]

/-- C17: for every initial status and every callback behaviour, the status
reporter and the transition methods Start, Pause, Continue and Shutdown leave
the stop event exactly as it was; a successful Shutdown reports Stopped without
signaling it; and a Stop that changes the stop event is a Stop whose `OnStop`
succeeded. -/
theorem C17_stop_event_written_by_stop_only (w : Service) :
    (∀ s e h, (SetServiceStatus w s e h).hSvcStopEvent = w.hSvcStopEvent) ∧
      (∀ t, (∀ cb, t ≠ Transition.Stop cb) → (t.run w).1.hSvcStopEvent = w.hSvcStopEvent) ∧
      (∀ cb, cb.outcome = none →
        (Shutdown w cb).1.m_status.dwCurrentState = SERVICE_STOPPED ∧
        (Shutdown w cb).1.hSvcStopEvent = w.hSvcStopEvent) ∧
      (∀ cb, (Stop w cb).1.hSvcStopEvent ≠ w.hSvcStopEvent → cb.outcome = none) := by
  refine ⟨fun _ _ _ => rfl, fun t ht => transition_stopEvent t w ht, fun cb ho => ?_,
    fun cb hne => ?_⟩
  · exact ⟨(transition_success (Transition.Shutdown cb) w ho).2,
      transition_stopEvent (Transition.Shutdown cb) w (fun _ h => by cases h)⟩
  · rcases ho : cb.outcome with _ | f
    · rfl
    · exfalso
      apply hne
      simp only [Stop]
      rw [runCallback_eq, ho]
      cases f <;> simp [runCallback_stopEvent]

/-- C17 at a concrete input: a successful Shutdown of the running service
reports Stopped and leaves the stop event not signaled. -/
theorem C17_witness :
    cbOk.outcome = none ∧
      (Shutdown running cbOk).1.m_status.dwCurrentState = SERVICE_STOPPED ∧
      (Shutdown running cbOk).1.hSvcStopEvent = some false :=
  ⟨rfl, ((C17_stop_event_written_by_stop_only running).2.2.1 cbOk rfl).1,
    ((C17_stop_event_written_by_stop_only running).2.2.1 cbOk rfl).2.trans (by decide)⟩

/-! ## The entry point -/

@[simp] theorem WriteEventLogEntry_host (w : Service) (n m : String) (t : EventType) :
    (WriteEventLogEntry w n m t).host = w.host := by
  unfold WriteEventLogEntry
  cases w.host.RegisterEventSource w.nRegisterEventSource <;> rfl

@[simp] theorem WriteEventLogEntry_bDebug (w : Service) (n m : String) (t : EventType) :
    (WriteEventLogEntry w n m t).bDebug = w.bDebug := by
  unfold WriteEventLogEntry
  cases w.host.RegisterEventSource w.nRegisterEventSource <;> rfl

theorem withoutEventLog_WriteEventLogEntry (w : Service) (n m : String) (t : EventType) :
    withoutEventLog (WriteEventLogEntry w n m t).trace = withoutEventLog w.trace := by
  unfold WriteEventLogEntry
  cases w.host.RegisterEventSource w.nRegisterEventSource <;>
    simp [withoutEventLog, List.filter_append]

theorem transition_host (t : Transition) (w : Service) : (t.run w).1.host = w.host :=
  transition_keeps (fun x => x.host = w.host) (fun _ _ _ h => h) (fun _ _ _ _ h => h)
    (fun x a b c h => (WriteEventLogEntry_host x a b c).trans h) (fun _ h => h) t w rfl

theorem WriteEventLogEntry_lastError (w : Service) (n m : String) (t : EventType) :
    (WriteEventLogEntry w n m t).lastError =
      (match w.host.eventLogLastError w.nRegisterEventSource with
        | some dwError => dwError
        | none => w.lastError) := by
  unfold WriteEventLogEntry
  cases w.host.RegisterEventSource w.nRegisterEventSource <;> rfl

theorem WriteEventLogEntry_nRegisterEventSource (w : Service) (n m : String) (t : EventType) :
    (WriteEventLogEntry w n m t).nRegisterEventSource = w.nRegisterEventSource + 1 := by
  unfold WriteEventLogEntry
  cases w.host.RegisterEventSource w.nRegisterEventSource <;> rfl

/-- The entry point when the registration of the control handler is refused:
the exception carries the last-error code as it is after the event-log entry
"Service starting *1.". -/
theorem ServiceMain_refused (w : Service) (pszArgv : List String)
    (OnStart : List String → Callback)
    (hd : w.bDebug = false) (hr : w.host.RegisterServiceCtrlHandler = none) :
    ServiceMain w pszArgv OnStart =
      (WriteEventLogEntry
        { WriteEventLogEntry w "SystemD-Service-Exec" "Service starting."
            EventType.EVENTLOG_ERROR_TYPE with
          m_statusHandle := none
          lastError := w.host.registrationError }
        "SystemD-Service-Exec" "Service starting *1." EventType.EVENTLOG_ERROR_TYPE,
       Exit.thrown (Failure.typed
        (match w.host.eventLogLastError (w.nRegisterEventSource + 1) with
          | some dwError => dwError
          | none => w.host.registrationError))) := by
  simp [ServiceMain, hd, hr, WriteEventLogEntry_lastError, WriteEventLogEntry_nRegisterEventSource]

/-- In non-debug mode, when the host returns no handle for the control
handler, `ServiceMain` ends with an exception; up to that point it has written
event-log entries only: the start-up arguments and `OnStart` play no part in
the result, no log line, no status report and no stop-event signal has been
added, and the status record, the check-point counter and the stop event are
as they were at the call. The code it throws is the code of the refused
registration only when the event-log entry written in between leaves the
last-error code alone; otherwise it is the code that entry left behind. -/
theorem ServiceMain_refused_frame (w : Service) (pszArgv : List String)
    (OnStart : List String → Callback)
    (hd : w.bDebug = false) (hr : w.host.RegisterServiceCtrlHandler = none) :
    (ServiceMain w pszArgv OnStart).2 =
        Exit.thrown (Failure.typed
          (match w.host.eventLogLastError (w.nRegisterEventSource + 1) with
            | some dwError => dwError
            | none => w.host.registrationError)) ∧
      (∀ pszArgv2 OnStart2, ServiceMain w pszArgv2 OnStart2 = ServiceMain w pszArgv OnStart) ∧
      (ServiceMain w pszArgv OnStart).1.m_status = w.m_status ∧
      (ServiceMain w pszArgv OnStart).1.dwCheckPoint = w.dwCheckPoint ∧
      (ServiceMain w pszArgv OnStart).1.hSvcStopEvent = w.hSvcStopEvent ∧
      withoutEventLog (ServiceMain w pszArgv OnStart).1.trace = withoutEventLog w.trace ∧
      published (ServiceMain w pszArgv OnStart).1.trace = published w.trace := by
  refine ⟨?_, ?_, ?_, ?_, ?_, ?_, ?_⟩
  · rw [ServiceMain_refused w pszArgv OnStart hd hr]
  · intro a2 O2
    rw [ServiceMain_refused w pszArgv OnStart hd hr, ServiceMain_refused w a2 O2 hd hr]
  · rw [ServiceMain_refused w pszArgv OnStart hd hr]
    simp only [WriteEventLogEntry_m_status]
  · rw [ServiceMain_refused w pszArgv OnStart hd hr]
    simp only [WriteEventLogEntry_checkPoint]
  · rw [ServiceMain_refused w pszArgv OnStart hd hr]
    simp only [WriteEventLogEntry_stopEvent]
  · rw [ServiceMain_refused w pszArgv OnStart hd hr]
    simp only [withoutEventLog_WriteEventLogEntry]
  · rw [ServiceMain_refused w pszArgv OnStart hd hr]
    simp only [published_WriteEventLogEntry]

/-- C18, the code at the failing input: non-debug mode, the host refuses the
registration of the control handler with last error 1056, and the host calls
of the event-log entry "Service starting *1.", which `ServiceMain` writes
before it reads `GetLastError()`, leave the last error 5. `ServiceMain` throws
5, the code of the event-log call, not the code 1056 of the refused
registration. (No transition has run: the status record is as constructed and
no status report has been issued.) -/
theorem C18_thrown_code_overwritten_by_event_log :
    freshNoHandlerLogFails.bDebug = false ∧
      freshNoHandlerLogFails.host.RegisterServiceCtrlHandler = none ∧
      freshNoHandlerLogFails.host.registrationError = 1056 ∧
      (ServiceMain freshNoHandlerLogFails [] (fun _ => cbOk)).2
        = Exit.thrown (Failure.typed 5) ∧
      (ServiceMain freshNoHandlerLogFails [] (fun _ => cbOk)).1.m_status
        = freshNoHandlerLogFails.m_status ∧
      published (ServiceMain freshNoHandlerLogFails [] (fun _ => cbOk)).1.trace = [] := by
  decide

@[simp] theorem logfile_host (w : Service) (l : Option LogLevel) (t : String) :
    (logfile w l t).host = w.host := rfl

theorem Start_returns (w : Service) (pszArgv : List String) (OnStart : List String → Callback) :
    Start w pszArgv OnStart = ((Start w pszArgv OnStart).1, none) := by
  have h := transition_returns_normally (Transition.Start pszArgv OnStart) w
    (fun _ h => by cases h)
  simp only [Transition.run] at h
  exact Prod.ext rfl h

/-- The state that Start reports last: Running after a success, Stopped after
a failure of `OnStart`. -/
theorem Start_final_state (w : Service) (pszArgv : List String)
    (OnStart : List String → Callback) :
    (Start w pszArgv OnStart).1.m_status.dwCurrentState =
      (if (OnStart pszArgv).outcome = none then SERVICE_RUNNING else SERVICE_STOPPED) := by
  rcases ho : (OnStart pszArgv).outcome with _ | f
  · simp [Start, runCallback, ho]
  · cases f <;> simp [Start, runCallback, ho]

/-- Start issues its pending report, lets the callback re-report, and issues
one final report. -/
theorem Start_published_length (w : Service) (pszArgv : List String)
    (OnStart : List String → Callback) :
    (published (Start w pszArgv OnStart).1.trace).length =
      (published w.trace).length + 2 + (OnStart pszArgv).reports.length := by
  have hcb := published_runCallback_length
    (SetServiceStatus (logfile w (some LogLevel.Info) ("Start Service " ++ w.m_name))
      SERVICE_START_PENDING NO_ERROR defaultWaitHint) (OnStart pszArgv)
  rw [published_SetServiceStatus, List.length_append, published_logfile] at hcb
  simp only [List.length_cons, List.length_nil] at hcb
  simp only [Start]
  rcases ho : (OnStart pszArgv).outcome with _ | f
  · rw [runCallback_eq, ho]
    simp only [published_SetServiceStatus, List.length_append, List.length_cons,
      List.length_nil, hcb]
    omega
  · rw [runCallback_eq, ho]
    cases f <;>
      simp only [published_SetServiceStatus, published_logfile, published_WriteErrorLogEntry,
        published_WriteEventLogEntry, List.length_append, List.length_cons, List.length_nil,
        hcb] <;>
      omega

/-- The entry point after the registration step, when the host refuses to
create the stop event: the service has been started, then the method returns. -/
theorem afterRegistration_noEvent (v : Service) (pszArgv : List String)
    (OnStart : List String → Callback) (hc : v.host.CreateEvent = false) :
    (ServiceMain.afterRegistration v pszArgv OnStart).2 = Exit.returned ∧
      (ServiceMain.afterRegistration v pszArgv OnStart).1.hSvcStopEvent = none ∧
      (ServiceMain.afterRegistration v pszArgv OnStart).1.m_status =
        (Start (WriteEventLogEntry v "SystemD-Service-Exec" "Service starting *2."
          EventType.EVENTLOG_ERROR_TYPE) pszArgv OnStart).1.m_status ∧
      published (ServiceMain.afterRegistration v pszArgv OnStart).1.trace =
        published (Start (WriteEventLogEntry v "SystemD-Service-Exec" "Service starting *2."
          EventType.EVENTLOG_ERROR_TYPE) pszArgv OnStart).1.trace := by
  have hh : (Start (WriteEventLogEntry v "SystemD-Service-Exec" "Service starting *2."
      EventType.EVENTLOG_ERROR_TYPE) pszArgv OnStart).1.host.CreateEvent = false := by
    have h := transition_host (Transition.Start pszArgv OnStart)
      (WriteEventLogEntry v "SystemD-Service-Exec" "Service starting *2."
        EventType.EVENTLOG_ERROR_TYPE)
    simp only [Transition.run] at h
    rw [h, WriteEventLogEntry_host]
    exact hc
  have hE : ServiceMain.afterRegistration v pszArgv OnStart =
      (WriteEventLogEntry
        { logfile
            (WriteEventLogEntry
              (Start (WriteEventLogEntry v "SystemD-Service-Exec" "Service starting *2."
                EventType.EVENTLOG_ERROR_TYPE) pszArgv OnStart).1
              "SystemD-Service-Exec" "Service starting *3." EventType.EVENTLOG_ERROR_TYPE)
            none " create event" with hSvcStopEvent := none }
        "SystemD-Service-Exec" "Service abnormal exit." EventType.EVENTLOG_ERROR_TYPE,
       Exit.returned) := by
    simp only [ServiceMain.afterRegistration]
    rw [Start_returns]
    simp only [logfile_host, WriteEventLogEntry_host, hh, Bool.false_eq_true, if_false]
  rw [hE]
  refine ⟨rfl, ?_, ?_, ?_⟩
  · rw [WriteEventLogEntry_stopEvent]
  · rw [WriteEventLogEntry_m_status]
    exact WriteEventLogEntry_m_status _ _ _ _
  · rw [published_WriteEventLogEntry]
    exact (published_logfile _ _ _).trans (published_WriteEventLogEntry _ _ _ _)

/-- C19 as stated fails: on a host that refuses to create the stop event,
`ServiceMain` returns, but by then Start has run: the state is Running and two
status reports have been issued. -/
theorem C19_counterexample :
    (ServiceMain freshNoEvent [] (fun _ => cbOk)).2 = Exit.returned ∧
      (ServiceMain freshNoEvent [] (fun _ => cbOk)).1.m_status.dwCurrentState = SERVICE_RUNNING ∧
      (published (ServiceMain freshNoEvent [] (fun _ => cbOk)).1.trace).length = 2 := by
  decide

/-- C19, amended: when the host refuses to create the stop event (the control
handler being registered, or the mode being debug), `ServiceMain` returns
without waiting and without a stop event, but only after the Start transition:
`OnStart` has been invoked, the state is Running when it succeeded and Stopped
when it failed, and the reports of Start (at least two) have been issued. -/
theorem C19_no_stop_event_returns_after_start (w : Service) (pszArgv : List String)
    (OnStart : List String → Callback) (hc : w.host.CreateEvent = false)
    (hreg : w.bDebug = true ∨ w.host.RegisterServiceCtrlHandler ≠ none) :
    (ServiceMain w pszArgv OnStart).2 = Exit.returned ∧
      (ServiceMain w pszArgv OnStart).1.hSvcStopEvent = none ∧
      (ServiceMain w pszArgv OnStart).1.m_status.dwCurrentState =
        (if (OnStart pszArgv).outcome = none then SERVICE_RUNNING else SERVICE_STOPPED) ∧
      (published (ServiceMain w pszArgv OnStart).1.trace).length =
        (published w.trace).length + 2 + (OnStart pszArgv).reports.length := by
  have key : ∀ v : Service, v.host.CreateEvent = false →
      published v.trace = published w.trace →
      ServiceMain w pszArgv OnStart = ServiceMain.afterRegistration v pszArgv OnStart →
      (ServiceMain w pszArgv OnStart).2 = Exit.returned ∧
      (ServiceMain w pszArgv OnStart).1.hSvcStopEvent = none ∧
      (ServiceMain w pszArgv OnStart).1.m_status.dwCurrentState =
        (if (OnStart pszArgv).outcome = none then SERVICE_RUNNING else SERVICE_STOPPED) ∧
      (published (ServiceMain w pszArgv OnStart).1.trace).length =
        (published w.trace).length + 2 + (OnStart pszArgv).reports.length := by
    intro v hv hp he
    have hA := afterRegistration_noEvent v pszArgv OnStart hv
    rw [he]
    refine ⟨hA.1, hA.2.1, ?_, ?_⟩
    · rw [hA.2.2.1]
      exact Start_final_state _ _ _
    · rw [hA.2.2.2, Start_published_length, published_WriteEventLogEntry, hp]
  by_cases hd : w.bDebug = true
  · refine key (WriteEventLogEntry w "SystemD-Service-Exec" "Service starting."
      EventType.EVENTLOG_ERROR_TYPE) ?_ (published_WriteEventLogEntry _ _ _ _) ?_
    · rw [WriteEventLogEntry_host]
      exact hc
    · simp [ServiceMain, hd]
  · have hne : w.host.RegisterServiceCtrlHandler ≠ none := hreg.resolve_left hd
    obtain ⟨hdl, hhdl⟩ := Option.ne_none_iff_exists'.mp hne
    refine key
      { WriteEventLogEntry w "SystemD-Service-Exec" "Service starting."
          EventType.EVENTLOG_ERROR_TYPE with m_statusHandle := some hdl } ?_ ?_ ?_
    · show (WriteEventLogEntry w "SystemD-Service-Exec" "Service starting."
        EventType.EVENTLOG_ERROR_TYPE).host.CreateEvent = false
      rw [WriteEventLogEntry_host]
      exact hc
    · exact published_WriteEventLogEntry _ _ _ _
    · simp [ServiceMain, hd, hhdl]

/-- C19 (amended) at a concrete input: a fresh service on a host that refuses
to create the stop event, with an `OnStart` that throws the code 5. -/
theorem C19_witness :
    freshNoEvent.host.CreateEvent = false ∧
      (ServiceMain freshNoEvent [] (fun _ => cbFail (Failure.typed 5))).2 = Exit.returned ∧
      (ServiceMain freshNoEvent [] (fun _ => cbFail (Failure.typed 5))).1.m_status.dwCurrentState
        = SERVICE_STOPPED :=
  ⟨by decide,
    (C19_no_stop_event_returns_after_start freshNoEvent [] (fun _ => cbFail (Failure.typed 5))
      (by decide) (Or.inr (by decide))).1,
    (C19_no_stop_event_returns_after_start freshNoEvent [] (fun _ => cbFail (Failure.typed 5))
      (by decide) (Or.inr (by decide))).2.2.1.trans (by decide)⟩

/-! ## What a transition writes after a failure of its callback -/

theorem WriteEventLogEntry_trace (w : Service) (n m : String) (t : EventType) :
    (WriteEventLogEntry w n m t).trace =
      w.trace ++
        (if w.host.RegisterEventSource w.nRegisterEventSource then [Effect.ReportEvent n m t]
         else []) := by
  unfold WriteEventLogEntry
  cases w.host.RegisterEventSource w.nRegisterEventSource <;> simp

theorem afterCallback_fields (t : Transition) (w : Service) :
    (t.afterCallback w).host = w.host ∧
      (t.afterCallback w).nRegisterEventSource = w.nRegisterEventSource ∧
      (t.afterCallback w).m_name = w.m_name := by
  unfold Transition.afterCallback
  rw [runCallback_host, runCallback_nRegisterEventSource, runCallback_name]
  cases t <;> exact ⟨rfl, rfl, rfl⟩

/-- The shape of the trace of a failure path: from the state `A` in which the
callback threw, the event-log entry (when the host grants the event source),
the error line on the log stream, then the status reports in `rest`. -/
theorem failure_shape (w A X : Service) (m text : String) (rest : List Effect)
    (hA : A.host = w.host ∧ A.nRegisterEventSource = w.nRegisterEventSource ∧
      A.m_name = w.m_name)
    (hX : X.trace =
      (logfile (WriteEventLogEntry A A.m_name m EventType.EVENTLOG_ERROR_TYPE)
        (some LogLevel.Error) text).trace ++ rest)
    (hrest : ∀ e ∈ rest, ∃ hdl st, e = Effect.SetServiceStatus hdl st)
    (hlen : rest.length ≤ 1) :
    ∃ msg text rest,
      X.trace =
        A.trace ++
          (if w.host.RegisterEventSource w.nRegisterEventSource then
            [Effect.ReportEvent w.m_name msg EventType.EVENTLOG_ERROR_TYPE]
           else []) ++
          [Effect.logline (some LogLevel.Error) text] ++ rest ∧
      (∀ e ∈ rest, ∃ hdl st, e = Effect.SetServiceStatus hdl st) ∧ rest.length ≤ 1 := by
  refine ⟨m, text, rest, ?_, hrest, hlen⟩
  rw [hX, logfile, WriteEventLogEntry_trace, hA.1, hA.2.1, hA.2.2]

/-- C20 as stated fails: on a host that grants no event source, a Pause whose
`OnPause` throws a `std::exception` writes its error line to the log stream and
reports Running again, but no entry reaches the system event log. -/
theorem C20_counterexample :
    eventLog (Pause runningNoEventSource (cbFail (Failure.described "boom"))).1.trace = [] ∧
      (Pause runningNoEventSource (cbFail (Failure.described "boom"))).1.m_status.dwCurrentState
        = SERVICE_RUNNING := by
  decide

/-- C20, amended: for each transition and every kind of callback failure that
the transition catches (all but an unclassified failure in Stop), what the
transition adds to the trace once the callback has thrown is, in this order:
one error-severity event-log entry when the host grants the event source (none
when it refuses it), exactly one error-severity line on the log stream, and
then the status report that restores the state, if the transition issues one.
So the log line, and the event-log entry when there is one, precede every
status report issued after the failure. -/
theorem C20_failure_logged_before_report (t : Transition) (w : Service) (f : Failure)
    (h : t.callback.outcome = some f)
    (hcaught : ∀ cb, t = Transition.Stop cb → f ≠ Failure.unknown) :
    ∃ msg text rest,
      (t.run w).1.trace =
        (t.afterCallback w).trace ++
          (if w.host.RegisterEventSource w.nRegisterEventSource then
            [Effect.ReportEvent w.m_name msg EventType.EVENTLOG_ERROR_TYPE]
           else []) ++
          [Effect.logline (some LogLevel.Error) text] ++ rest ∧
      (∀ e ∈ rest, ∃ hdl st, e = Effect.SetServiceStatus hdl st) ∧ rest.length ≤ 1 := by
  have hA := afterCallback_fields t w
  have hone : ∀ x : Effect, ∀ e ∈ [x], (∃ hdl st, x = Effect.SetServiceStatus hdl st) →
      ∃ hdl st, e = Effect.SetServiceStatus hdl st := by
    intro x e he hx
    rw [List.mem_singleton] at he
    rw [he]
    exact hx
  cases t with
  | Start pszArgv OnStart =>
    simp only [Transition.callback] at h
    simp only [Transition.run, Start]
    rw [runCallback_eq, h]
    cases f
    · exact failure_shape w _ _ _ _ [_] hA rfl (fun e he => hone _ e he ⟨_, _, rfl⟩) (by simp)
    · exact failure_shape w _ _ _ _ [_] hA rfl (fun e he => hone _ e he ⟨_, _, rfl⟩) (by simp)
    · exact failure_shape w _ _ _ _ [_] hA rfl (fun e he => hone _ e he ⟨_, _, rfl⟩) (by simp)
  | Stop OnStop =>
    simp only [Transition.callback] at h
    simp only [Transition.run, Stop]
    rw [runCallback_eq, h]
    cases f
    · exact failure_shape w _ _ _ _ [_] hA rfl (fun e he => hone _ e he ⟨_, _, rfl⟩) (by simp)
    · exact failure_shape w _ _ _ _ [_] hA rfl (fun e he => hone _ e he ⟨_, _, rfl⟩) (by simp)
    · exact absurd rfl (hcaught OnStop rfl)
  | Pause OnPause =>
    simp only [Transition.callback] at h
    simp only [Transition.run, Pause]
    rw [runCallback_eq, h]
    cases f
    · exact failure_shape w _ _ _ _ [_] hA rfl (fun e he => hone _ e he ⟨_, _, rfl⟩) (by simp)
    · exact failure_shape w _ _ _ _ [_] hA rfl (fun e he => hone _ e he ⟨_, _, rfl⟩) (by simp)
    · exact failure_shape w _ _ _ _ [] hA (List.append_nil _).symm
        (fun e he => absurd he (List.not_mem_nil e)) (by simp)
  | Continue OnContinue =>
    simp only [Transition.callback] at h
    simp only [Transition.run, Continue]
    rw [runCallback_eq, h]
    cases f
    · exact failure_shape w _ _ _ _ [_] hA rfl (fun e he => hone _ e he ⟨_, _, rfl⟩) (by simp)
    · exact failure_shape w _ _ _ _ [_] hA rfl (fun e he => hone _ e he ⟨_, _, rfl⟩) (by simp)
    · exact failure_shape w _ _ _ _ [_] hA rfl (fun e he => hone _ e he ⟨_, _, rfl⟩) (by simp)
  | Shutdown OnShutdown =>
    simp only [Transition.callback] at h
    simp only [Transition.run, Shutdown]
    rw [runCallback_eq, h]
    cases f
    · exact failure_shape w _ _ _ _ [] hA (List.append_nil _).symm
        (fun e he => absurd he (List.not_mem_nil e)) (by simp)
    · exact failure_shape w _ _ _ _ [] hA (List.append_nil _).symm
        (fun e he => absurd he (List.not_mem_nil e)) (by simp)
    · exact failure_shape w _ _ _ _ [] hA (List.append_nil _).symm
        (fun e he => absurd he (List.not_mem_nil e)) (by simp)

/-- C20 (amended) at a concrete input: an unclassified failure of `OnContinue`
on the running service. -/
theorem C20_witness :
    (Transition.Continue (cbFail Failure.unknown)).callback.outcome = some Failure.unknown ∧
      ∃ msg text rest,
        ((Transition.Continue (cbFail Failure.unknown)).run running).1.trace =
          ((Transition.Continue (cbFail Failure.unknown)).afterCallback running).trace ++
            (if running.host.RegisterEventSource running.nRegisterEventSource then
              [Effect.ReportEvent running.m_name msg EventType.EVENTLOG_ERROR_TYPE]
             else []) ++
            [Effect.logline (some LogLevel.Error) text] ++ rest ∧
        (∀ e ∈ rest, ∃ hdl st, e = Effect.SetServiceStatus hdl st) ∧ rest.length ≤ 1 :=
  ⟨rfl,
    C20_failure_logged_before_report (Transition.Continue (cbFail Failure.unknown)) running
      Failure.unknown rfl (fun _ h => by cases h)⟩

/-! ## Start followed by Stop, and the accepted controls -/

theorem infoLines_logfile_info (w : Service) (t : String) :
    infoLines (logfile w (some LogLevel.Info) t).trace = infoLines w.trace ++ [t] := by
  simp [logfile, infoLines, List.filterMap_append]

theorem infoLines_SetServiceStatus (w : Service) (s : ServiceState) (e h : Nat) :
    infoLines (SetServiceStatus w s e h).trace = infoLines w.trace := by
  simp [SetServiceStatus, infoLines, List.filterMap_append]

theorem infoLines_SetEvent (w : Service) : infoLines (SetEvent w).trace = infoLines w.trace := by
  simp [SetEvent, infoLines, List.filterMap_append]

theorem infoLines_runCallback (w : Service) (cb : Callback) :
    infoLines (runCallback w cb).1.trace = infoLines w.trace :=
  runCallback_keeps (fun x => infoLines x.trace = infoLines w.trace)
    (fun x s e h hx => (infoLines_SetServiceStatus x s e h).trans hx) w cb rfl

/-- A successful Start followed by a successful Stop: the methods return, the
record ends at Stopped with exit code 0 and check-point 0, and the two
informational lines added to the log stream are the announcement of Start and
the announcement of Stop, both with the text "Start Service " and the name. -/
theorem start_then_stop_success (w : Service) (pszArgv : List String)
    (OnStart : List String → Callback) (OnStop : Callback)
    (h1 : (OnStart pszArgv).outcome = none) (h2 : OnStop.outcome = none) :
    (Start w pszArgv OnStart).2 = none ∧
      (Stop (Start w pszArgv OnStart).1 OnStop).2 = none ∧
      (Stop (Start w pszArgv OnStart).1 OnStop).1.m_status.dwCurrentState = SERVICE_STOPPED ∧
      (Stop (Start w pszArgv OnStart).1 OnStop).1.m_status.dwWin32ExitCode = 0 ∧
      (Stop (Start w pszArgv OnStart).1 OnStop).1.m_status.dwCheckPoint = 0 ∧
      infoLines (Stop (Start w pszArgv OnStart).1 OnStop).1.trace =
        infoLines w.trace ++ ["Start Service " ++ w.m_name, "Start Service " ++ w.m_name] := by
  have hS : Start w pszArgv OnStart =
      (SetServiceStatus
        (runCallback
          (SetServiceStatus (logfile w (some LogLevel.Info) ("Start Service " ++ w.m_name))
            SERVICE_START_PENDING NO_ERROR defaultWaitHint) (OnStart pszArgv)).1
        SERVICE_RUNNING NO_ERROR defaultWaitHint, none) := by
    simp only [Start]
    rw [runCallback_eq, h1]
  have hname : (Start w pszArgv OnStart).1.m_name = w.m_name := by
    rw [hS]
    simp only [SetServiceStatus_name, runCallback_name]
    rfl
  have hinfo : infoLines (Start w pszArgv OnStart).1.trace =
      infoLines w.trace ++ ["Start Service " ++ w.m_name] := by
    rw [hS]
    simp only [infoLines_SetServiceStatus, infoLines_runCallback, infoLines_logfile_info]
  have hT : ∀ v : Service, Stop v OnStop =
      (SetEvent (SetServiceStatus
        (runCallback
          (SetServiceStatus (logfile v (some LogLevel.Info) ("Start Service " ++ v.m_name))
            SERVICE_STOP_PENDING NO_ERROR defaultWaitHint) OnStop).1
        SERVICE_STOPPED NO_ERROR defaultWaitHint), none) := by
    intro v
    simp only [Stop]
    rw [runCallback_eq, h2]
  refine ⟨by rw [hS], by rw [hT], by rw [hT]; rfl, by rw [hT]; rfl, ?_, ?_⟩
  · rw [hT]
    exact SetServiceStatus_checkPoint_final _ _ _ _ (Or.inr rfl)
  · rw [hT]
    simp only [infoLines_SetEvent, infoLines_SetServiceStatus, infoLines_runCallback,
      infoLines_logfile_info, hinfo, hname, List.append_assoc, List.singleton_append]

/-- C21, the code at the failing input: a fresh service named "svc", a Start
whose `OnStart` succeeds, then a Stop whose `OnStop` succeeds. The record ends
at Stopped with exit code 0 and check-point 0 and the log stream has received
two informational lines, but both read "Start Service svc": the line that Stop
writes on entry announces a start, so no line announces the stop. -/
theorem C21_stop_announced_as_start :
    (Stop (Start fresh [] (fun _ => cbOk)).1 cbOk).1.m_status.dwCurrentState = SERVICE_STOPPED ∧
      (Stop (Start fresh [] (fun _ => cbOk)).1 cbOk).1.m_status.dwWin32ExitCode = 0 ∧
      (Stop (Start fresh [] (fun _ => cbOk)).1 cbOk).1.m_status.dwCheckPoint = 0 ∧
      infoLines (Stop (Start fresh [] (fun _ => cbOk)).1 cbOk).1.trace =
        ["Start Service svc", "Start Service svc"] := by
  decide

theorem handler_controlsAccepted (w : Service) (dwCtrl : ControlCode) (cb : Callback) :
    (ServiceCtrlHandler w dwCtrl cb).1.m_status.dwControlsAccepted
      = w.m_status.dwControlsAccepted := by
  have he : (handlerEntry w).m_status.dwControlsAccepted = w.m_status.dwControlsAccepted := by
    rw [handlerEntry, WriteEventLogEntry_m_status]
  cases dwCtrl with
  | SERVICE_CONTROL_STOP =>
    exact (transition_controlsAccepted (Transition.Stop cb) (handlerEntry w)).trans he
  | SERVICE_CONTROL_PAUSE =>
    exact (transition_controlsAccepted (Transition.Pause cb) (handlerEntry w)).trans he
  | SERVICE_CONTROL_CONTINUE =>
    exact (transition_controlsAccepted (Transition.Continue cb) (handlerEntry w)).trans he
  | SERVICE_CONTROL_SHUTDOWN =>
    exact (transition_controlsAccepted (Transition.Shutdown cb) (handlerEntry w)).trans he
  | SERVICE_CONTROL_INTERROGATE => exact he
  | other n => exact he

theorem step_controlsAccepted (s : Step) (w : Service) :
    (s.run w).1.m_status.dwControlsAccepted = w.m_status.dwControlsAccepted := by
  cases s with
  | transition t => exact transition_controlsAccepted t w
  | control dwCtrl cb => exact handler_controlsAccepted w dwCtrl cb
  | report r => rfl

theorem runSteps_controlsAccepted (w : Service) (steps : List Step) :
    (runSteps w steps).1.m_status.dwControlsAccepted = w.m_status.dwControlsAccepted := by
  induction steps generalizing w with
  | nil => rfl
  | cons s ss ih =>
    have hs := step_controlsAccepted s w
    rcases hr : s.run w with ⟨w1, o⟩
    rw [hr] at hs
    cases o with
    | none =>
      simp only [runSteps, hr]
      exact (ih w1).trans hs
    | some f =>
      simp only [runSteps, hr]
      exact hs

/-- C22: the constructor sets `dwControlsAccepted` to the mask with the Stop
bit iff `fCanStop`, the Shutdown bit iff `fCanShutdown` and the Pause/Continue
bit iff `fCanPauseContinue`, with the state StartPending, exit code 0,
check-point 0 and wait hint 0; and after every sequence of transition calls,
control codes and status reports, whatever the callbacks do, the service
constructed this way (like any other) still holds that mask. -/
theorem C22_accepted_controls_fixed (host : Host) (pszServiceName : Option String)
    (suppliedLog fCanStop fCanShutdown fCanPauseContinue : Bool) (w : Service)
    (steps : List Step) :
    (CServiceBase host pszServiceName suppliedLog fCanStop fCanShutdown
        fCanPauseContinue).m_status =
        { dwCurrentState := SERVICE_START_PENDING
          dwControlsAccepted :=
            { SERVICE_ACCEPT_STOP := fCanStop
              SERVICE_ACCEPT_SHUTDOWN := fCanShutdown
              SERVICE_ACCEPT_PAUSE_CONTINUE := fCanPauseContinue }
          dwWin32ExitCode := 0
          dwServiceSpecificExitCode := 0
          dwCheckPoint := 0
          dwWaitHint := 0 } ∧
      (runSteps (CServiceBase host pszServiceName suppliedLog fCanStop fCanShutdown
        fCanPauseContinue) steps).1.m_status.dwControlsAccepted =
        { SERVICE_ACCEPT_STOP := fCanStop
          SERVICE_ACCEPT_SHUTDOWN := fCanShutdown
          SERVICE_ACCEPT_PAUSE_CONTINUE := fCanPauseContinue } ∧
      (runSteps w steps).1.m_status.dwControlsAccepted = w.m_status.dwControlsAccepted := by
  have h0 : (CServiceBase host pszServiceName suppliedLog fCanStop fCanShutdown
      fCanPauseContinue).m_status =
      { dwCurrentState := SERVICE_START_PENDING
        dwControlsAccepted :=
          { SERVICE_ACCEPT_STOP := fCanStop
            SERVICE_ACCEPT_SHUTDOWN := fCanShutdown
            SERVICE_ACCEPT_PAUSE_CONTINUE := fCanPauseContinue }
        dwWin32ExitCode := 0
        dwServiceSpecificExitCode := 0
        dwCheckPoint := 0
        dwWaitHint := 0 } := by
    cases suppliedLog <;> rfl
  refine ⟨h0, ?_, runSteps_controlsAccepted w steps⟩
  rw [runSteps_controlsAccepted, h0]

/-! ## States reached through the control handler and the entry point -/

/-- A property of the state that every status report keeps, and that does not
look beyond the status record, the check-point counter and the published
reports, is kept by the part of `ServiceMain` after the registration. -/
theorem afterRegistration_keeps (P : Service → Prop)
    (hset : ∀ w s e h, P w → P (SetServiceStatus w s e h))
    (hother : ∀ w v, P w → v.m_status = w.m_status → v.dwCheckPoint = w.dwCheckPoint →
      published v.trace = published w.trace → P v)
    (w : Service) (pszArgv : List String) (OnStart : List String → Callback) (hw : P w) :
    P (ServiceMain.afterRegistration w pszArgv OnStart).1 := by
  have hlog : ∀ w l t, P w → P (logfile w l t) :=
    fun w l t h => hother w _ h rfl rfl (published_logfile w l t)
  have hev : ∀ w a b c, P w → P (WriteEventLogEntry w a b c) :=
    fun w a b c h => hother w _ h (WriteEventLogEntry_m_status w a b c)
      (WriteEventLogEntry_checkPoint w a b c) (published_WriteEventLogEntry w a b c)
  have hse : ∀ w, P w → P (SetEvent w) :=
    fun w h => hother w _ h rfl rfl (published_SetEvent w)
  have hS := transition_keeps P hlog hset hev hse (Transition.Start pszArgv OnStart) _
    (hev w "SystemD-Service-Exec" "Service starting *2." EventType.EVENTLOG_ERROR_TYPE hw)
  simp only [Transition.run] at hS
  simp only [ServiceMain.afterRegistration]
  rw [Start_returns]
  have h3 := hlog _ none " create event"
    (hev _ "SystemD-Service-Exec" "Service starting *3." EventType.EVENTLOG_ERROR_TYPE hS)
  simp only []
  cases (logfile
      (WriteEventLogEntry
        (Start (WriteEventLogEntry w "SystemD-Service-Exec" "Service starting *2."
          EventType.EVENTLOG_ERROR_TYPE) pszArgv OnStart).1
        "SystemD-Service-Exec" "Service starting *3." EventType.EVENTLOG_ERROR_TYPE)
      none " create event").host.CreateEvent
  · exact hev _ _ _ _ (hother _ _ h3 rfl rfl rfl)
  · simp only [if_true]
    split <;> exact hlog _ _ _ (hev _ _ _ _ (hother _ _ h3 rfl rfl rfl))

/-- The same for the whole of `ServiceMain`, up to its wait. -/
theorem ServiceMain_keeps (P : Service → Prop)
    (hset : ∀ w s e h, P w → P (SetServiceStatus w s e h))
    (hother : ∀ w v, P w → v.m_status = w.m_status → v.dwCheckPoint = w.dwCheckPoint →
      published v.trace = published w.trace → P v)
    (w : Service) (pszArgv : List String) (OnStart : List String → Callback) (hw : P w) :
    P (ServiceMain w pszArgv OnStart).1 := by
  have hev : ∀ w a b c, P w → P (WriteEventLogEntry w a b c) :=
    fun w a b c h => hother w _ h (WriteEventLogEntry_m_status w a b c)
      (WriteEventLogEntry_checkPoint w a b c) (published_WriteEventLogEntry w a b c)
  have h1 := hev w "SystemD-Service-Exec" "Service starting." EventType.EVENTLOG_ERROR_TYPE hw
  simp only [ServiceMain]
  split
  · exact afterRegistration_keeps P hset hother _ pszArgv OnStart h1
  · split
    · exact hev _ _ _ _ (hother _ _ h1 rfl rfl rfl)
    · exact afterRegistration_keeps P hset hother _ pszArgv OnStart (hother _ _ h1 rfl rfl rfl)

/-- The same for the control handler. -/
theorem handler_keeps (P : Service → Prop)
    (hset : ∀ w s e h, P w → P (SetServiceStatus w s e h))
    (hother : ∀ w v, P w → v.m_status = w.m_status → v.dwCheckPoint = w.dwCheckPoint →
      published v.trace = published w.trace → P v)
    (w : Service) (dwCtrl : ControlCode) (cb : Callback) (hw : P w) :
    P (ServiceCtrlHandler w dwCtrl cb).1 := by
  have hlog : ∀ w l t, P w → P (logfile w l t) :=
    fun w l t h => hother w _ h rfl rfl (published_logfile w l t)
  have hev : ∀ w a b c, P w → P (WriteEventLogEntry w a b c) :=
    fun w a b c h => hother w _ h (WriteEventLogEntry_m_status w a b c)
      (WriteEventLogEntry_checkPoint w a b c) (published_WriteEventLogEntry w a b c)
  have hse : ∀ w, P w → P (SetEvent w) :=
    fun w h => hother w _ h rfl rfl (published_SetEvent w)
  have h1 : P (handlerEntry w) := hev w _ _ _ hw
  cases dwCtrl with
  | SERVICE_CONTROL_STOP => exact transition_keeps P hlog hset hev hse (Transition.Stop cb) _ h1
  | SERVICE_CONTROL_PAUSE => exact transition_keeps P hlog hset hev hse (Transition.Pause cb) _ h1
  | SERVICE_CONTROL_CONTINUE =>
    exact transition_keeps P hlog hset hev hse (Transition.Continue cb) _ h1
  | SERVICE_CONTROL_SHUTDOWN =>
    exact transition_keeps P hlog hset hev hse (Transition.Shutdown cb) _ h1
  | SERVICE_CONTROL_INTERROGATE => exact h1
  | other n => exact h1

/-- A property that holds after construction, that every status report keeps
and that does not look beyond the status record, the check-point counter and
the published reports, holds in every state a service can be in. -/
theorem reached_keeps (P : Service → Prop)
    (hinit : ∀ host name l a b c, P (CServiceBase host name l a b c))
    (hset : ∀ w s e h, P w → P (SetServiceStatus w s e h))
    (hother : ∀ w v, P w → v.m_status = w.m_status → v.dwCheckPoint = w.dwCheckPoint →
      published v.trace = published w.trace → P v)
    (w : Service) (hw : Reached w) : P w := by
  have hlog : ∀ w l t, P w → P (logfile w l t) :=
    fun w l t h => hother w _ h rfl rfl (published_logfile w l t)
  have hev : ∀ w a b c, P w → P (WriteEventLogEntry w a b c) :=
    fun w a b c h => hother w _ h (WriteEventLogEntry_m_status w a b c)
      (WriteEventLogEntry_checkPoint w a b c) (published_WriteEventLogEntry w a b c)
  have hse : ∀ w, P w → P (SetEvent w) :=
    fun w h => hother w _ h rfl rfl (published_SetEvent w)
  induction hw with
  | init host name l a b c => exact hinit host name l a b c
  | report w r _ ih => exact hset _ _ _ _ ih
  | call w t _ ih => exact transition_keeps P hlog hset hev hse t w ih
  | control w dwCtrl cb _ ih => exact handler_keeps P hset hother w dwCtrl cb ih
  | main w pszArgv OnStart _ ih => exact ServiceMain_keeps P hset hother w pszArgv OnStart ih
  | afterWait w _ ih =>
    simp only [ServiceMain.afterWait]
    split <;> exact hev _ _ _ _ (hlog _ _ _ (by first | exact ih | exact hlog _ _ _ ih))
  | other w v _ hs hc hp ih => exact hother w v ih hs hc hp

/-- The invariant of the check-point counter holds in every state a service can
be in. -/
theorem CounterInv_of_reached (w : Service) (hw : Reached w) : CounterInv w :=
  reached_keeps CounterInv CounterInv_init
    (fun _ s e h hw => CounterInv_report hw s e h)
    (fun _ _ hw hs hc hp => CounterInv_transfer hw hc hs hp)
    w hw

/-- The states reachable by reports and transition calls alone are among the
states a service can be in. -/
theorem Reachable_reached (w : Service) (hw : Reachable w) : Reached w := by
  induction hw with
  | init host name l a b c => exact Reached.init host name l a b c
  | report w r _ ih => exact Reached.report w r ih
  | call w t _ ih => exact Reached.call w t ih

/-- The running service of the samples is a state a service can be in. -/
theorem running_reached : Reached running :=
  Reached.other (Start fresh [] (fun _ => cbOk)).1 running
    (Reached.call fresh (Transition.Start [] (fun _ => cbOk)) (Reached.init _ _ _ _ _ _))
    rfl rfl rfl

/-- The paused service of the samples went through the entry point and the
control handler. -/
theorem pausedAfterMain_reached : Reached pausedAfterMain :=
  Reached.control _ ControlCode.SERVICE_CONTROL_PAUSE cbOk
    (Reached.main fresh [] (fun _ => cbOk) (Reached.init _ _ _ _ _ _))

/-- C10, amended: in every state a service can be in (after construction,
status reports, transition calls, control codes and `ServiceMain`, in debug
mode or not, with any handles), a report of a state outside Running and
Stopped stores the value of the check-point counter, which is never reset: it
is 1 plus the number of such reports made since construction, modulo `2^32`.
It is the check-point held in the record plus one (modulo `2^32`) when the
state held in the record is itself outside Running and Stopped. -/
theorem C10_pending_report_stores_counter (w : Service) (hw : Reached w)
    (s : ServiceState) (e h : Nat)
    (hs : ¬ (s = SERVICE_RUNNING ∨ s = SERVICE_STOPPED)) :
    (SetServiceStatus w s e h).m_status.dwCheckPoint = w.dwCheckPoint ∧
      (SetServiceStatus w s e h).m_status.dwCheckPoint
        = (1 + otherReports w.trace) % DWORD_SIZE ∧
      (¬ (w.m_status.dwCurrentState = SERVICE_RUNNING ∨
          w.m_status.dwCurrentState = SERVICE_STOPPED) →
        (SetServiceStatus w s e h).m_status.dwCheckPoint
          = (w.m_status.dwCheckPoint + 1) % DWORD_SIZE) := by
  have hinv := CounterInv_of_reached w hw
  have hcp := SetServiceStatus_checkPoint_other w s e h hs
  refine ⟨hcp, ?_, fun hn => ?_⟩
  · rw [hcp]
    exact hinv.counter
  · rw [hcp]
    exact hinv.next hn

/-- C10 (amended) at a concrete input: a service that went through
`ServiceMain` and was paused by the control handler has made three reports of
states outside Running and Stopped (StartPending 1, PausePending 2, Paused 3);
its next pending report stores check-point 4, the check-point 3 of the record
plus one. -/
theorem C10_witness :
    Reached pausedAfterMain ∧
      ¬ (SERVICE_CONTINUE_PENDING = SERVICE_RUNNING ∨
        SERVICE_CONTINUE_PENDING = SERVICE_STOPPED) ∧
      pausedAfterMain.m_status.dwCheckPoint = 3 ∧
      otherReports pausedAfterMain.trace = 3 ∧
      (SetServiceStatus pausedAfterMain SERVICE_CONTINUE_PENDING 0 0).m_status.dwCheckPoint = 4 :=
  ⟨pausedAfterMain_reached, by decide, by decide, by decide,
    (C10_pending_report_stores_counter pausedAfterMain pausedAfterMain_reached
      SERVICE_CONTINUE_PENDING 0 0 (by decide)).1.trans (by decide)⟩

end ServiceBase
